import Mathlib

/-!
Model of the Uptime Kuma resource transformers (`app/resources/uptime_kuma.py`).

JSON values are modelled by the inductive type `Val`; Python `None` is `Val.null`,
numbers are exact rationals (float representation error is not modelled), and
dictionaries are association lists with string keys in insertion order.

Inputs to the transformers are modelled by typed structures following the
transformer's input contract (monitor bundles of monitor / heartbeats /
important_heartbeats / uptime / cert_info / avg_ping).  For a dictionary field,
`Option` distinguishes an absent key from a present one, and a nested `Option`
(or `Val.null`) distinguishes a present key holding JSON `null`; nested objects
(`certInfo`, `subject`, `monitor`, ...) are modelled as absent-or-mapping, since
a non-mapping there makes the Python runtime itself fault, which the contract
treats as a caller error.  Heartbeat `ping` values are numeric-or-null and
`time` values are strings per the contract.
-/

/-- A JSON-like Python value: `None`, booleans, numbers (exact rationals),
strings, lists and string-keyed dictionaries (insertion-ordered pairs). -/
inductive Val where
  | null
  | b (x : Bool)
  | num (q : ℚ)
  | s (x : String)
  | list (xs : List Val)
  | obj (kvs : List (String × Val))

mutual
/-- Python `==` on modelled values.  (Cross-type numeric equalities such as
`True == 1` are outside the modelled input contract.) -/
def valBeq : Val → Val → Bool
  | .null, .null => true
  | .b x, .b y => x == y
  | .num x, .num y => x == y
  | .s x, .s y => x == y
  | .list xs, .list ys => valListBeq xs ys
  | .obj xs, .obj ys => valObjBeq xs ys
  | _, _ => false
def valListBeq : List Val → List Val → Bool
  | [], [] => true
  | x :: xs, y :: ys => valBeq x y && valListBeq xs ys
  | _, _ => false
def valObjBeq : List (String × Val) → List (String × Val) → Bool
  | [], [] => true
  | (k, v) :: xs, (l, w) :: ys => k == l && valBeq v w && valObjBeq xs ys
  | _, _ => false
end

/-- Python truthiness of a modelled value. -/
def pyTruthy : Val → Bool
  | .null => false
  | .b x => x
  | .num q => decide (q ≠ 0)
  | .s x => decide (x ≠ "")
  | .list xs => !xs.isEmpty
  | .obj kvs => !kvs.isEmpty

/-- Lookup in a dictionary's pair list (first matching key). -/
def getPairs (k : String) : List (String × Val) → Option Val
  | [] => none
  | (k', v) :: rest => if k' = k then some v else getPairs k rest

/-- Python `d.get(k)`: `some` the stored value when the key is present
(the stored value may itself be `Val.null`), `none` when absent.
Only ever applied to dictionaries in the model. -/
def pyGet : Val → String → Option Val
  | .obj kvs, k => getPairs k kvs
  | _, _ => none

/-- Python `d.get(k, default)`. -/
def pyGetD (m : Val) (k : String) (d : Val) : Val := (pyGet m k).getD d

/-- The value Python's `d.get(k)` expression evaluates to (`None` for absent). -/
def optV (o : Option Val) : Val := o.getD .null

/-- Assignment `d[k] = v` on a dictionary's pair list: replaces the value at an
existing key in place, otherwise appends (Python dicts keep insertion order). -/
def setPairs (k : String) (v : Val) : List (String × Val) → List (String × Val)
  | [] => [(k, v)]
  | (k', v') :: rest => if k' = k then (k', v) :: rest else (k', v') :: setPairs k v rest

/-- Assignment `d[k] = v`; only ever applied to dictionaries in the model. -/
def pySet (m : Val) (k : String) (v : Val) : Val :=
  match m with
  | .obj kvs => .obj (setPairs k v kvs)
  | v' => v'

mutual
/-- `UptimeKumaResource.clean_value`: replace `None` or the empty string by the
sentinel `"-"`, recursing through dictionaries and lists.  (Only a string can
be Python-equal to `""`, so the `value == ""` test bites exactly on the string
case.) -/
def UptimeKumaResource.clean_value : Val → Val
  | .null => .s "-"
  | .s str => if str = "" then .s "-" else .s str
  | .obj kvs => .obj (UptimeKumaResource.cleanObj kvs)
  | .list xs => .list (UptimeKumaResource.cleanList xs)
  | .b x => .b x
  | .num q => .num q
def UptimeKumaResource.cleanList : List Val → List Val
  | [] => []
  | v :: vs => UptimeKumaResource.clean_value v :: UptimeKumaResource.cleanList vs
def UptimeKumaResource.cleanObj : List (String × Val) → List (String × Val)
  | [] => []
  | (k, v) :: kvs => (k, UptimeKumaResource.clean_value v) :: UptimeKumaResource.cleanObj kvs
end

mutual
/-- `true` when no leaf of the value is `Val.null` (Python `None`). -/
def noNull : Val → Bool
  | .null => false
  | .b _ => true
  | .num _ => true
  | .s _ => true
  | .list xs => noNullList xs
  | .obj kvs => noNullObj kvs
def noNullList : List Val → Bool
  | [] => true
  | v :: vs => noNull v && noNullList vs
def noNullObj : List (String × Val) → Bool
  | [] => true
  | (_, v) :: kvs => noNull v && noNullObj kvs
end

/-- Round a rational to the nearest integer, ties to even
(Python's `round` on an exactly-represented value). -/
def roundHalfEven (q : ℚ) : ℤ :=
  let f := ⌊q⌋
  let r := q - (f : ℚ)
  if r < 1/2 then f
  else if 1/2 < r then f + 1
  else if f % 2 = 0 then f else f + 1

/-- Python `round(q, n)` on the exact rational value. -/
def pyRound (n : ℕ) (q : ℚ) : ℚ := (roundHalfEven (q * 10 ^ n) : ℚ) / 10 ^ n

/-- Model of a non-negative square root on rationals
(`floor (sqrt (num * den)) / den`); stands in for the float square root inside
`statistics.stdev`, whose numeric value no claim depends on. -/
def ratSqrt (q : ℚ) : ℚ :=
  if q ≤ 0 then 0 else ((Nat.sqrt (q.num.toNat * q.den) : ℚ) / (q.den : ℚ))

/-- Sample variance `Σ (x - mean)² / (n - 1)` of a list of rationals. -/
def sampleVariance (l : List ℚ) : ℚ :=
  let μ := l.sum / (l.length : ℚ)
  ((l.map fun x => (x - μ) ^ 2).sum) / ((l.length : ℚ) - 1)

/-- The regex class `[A-Z]`. -/
def isUpperAscii (c : Char) : Bool := 65 ≤ c.toNat && c.toNat ≤ 90

/-- The regex class `[a-z]`. -/
def isLowerAscii (c : Char) : Bool := 97 ≤ c.toNat && c.toNat ≤ 122

/-- The regex class `[0-9]`. -/
def isDigitAscii (c : Char) : Bool := 48 ≤ c.toNat && c.toNat ≤ 57

/-- `str.lower()` on one character (ASCII; the regular expressions only
distinguish ASCII letters). -/
def toLowerAscii (c : Char) : Char :=
  if isUpperAscii c then Char.ofNat (c.toNat + 32) else c

/-- First substitution of `camel_to_snake`:
`re.sub('(.)([A-Z][a-z]+)', r'\1_\2', name)` — any character, an upper-case
letter, then a maximal non-empty run of lower-case letters; scanning resumes
after each match. -/
def sub1 : List Char → List Char
  | [] => []
  | [c] => [c]
  | c :: u :: rest =>
    if isUpperAscii u && !(rest.takeWhile isLowerAscii).isEmpty then
      c :: '_' :: u :: (rest.takeWhile isLowerAscii ++ sub1 (rest.dropWhile isLowerAscii))
    else
      c :: sub1 (u :: rest)
termination_by l => l.length
decreasing_by
  · simp only [List.length_cons]
    have h := (List.dropWhile_sublist (l := rest) isLowerAscii).length_le
    omega
  · simp [List.length_cons]

/-- Second substitution of `camel_to_snake`:
`re.sub('([a-z0-9])([A-Z])', r'\1_\2', s1)` — a lower-case letter or digit
followed by an upper-case letter; scanning resumes after each match. -/
def sub2 : List Char → List Char
  | [] => []
  | [c] => [c]
  | c :: u :: rest =>
    if (isLowerAscii c || isDigitAscii c) && isUpperAscii u then
      c :: '_' :: u :: sub2 rest
    else
      c :: sub2 (u :: rest)
termination_by l => l.length
decreasing_by
  · simp [List.length_cons]; omega
  · simp [List.length_cons]

/-- `UptimeKumaResource.camel_to_snake`. -/
def UptimeKumaResource.camel_to_snake (name : String) : String :=
  if name = "" then name
  else String.mk ((sub2 (sub1 name.data)).map toLowerAscii)

/-- Stable insertion into a sorted list: `x` goes before the first element `y`
with `le x y`. -/
def pyInsert (le : α → α → Bool) (x : α) : List α → List α
  | [] => [x]
  | y :: ys => if le x y then x :: y :: ys else y :: pyInsert le x ys

/-- Stable sort by the total preorder `le`; models Python's stable `list.sort`
(with `reverse=True` modelled by a reversed `le`). -/
def pySort (le : α → α → Bool) : List α → List α
  | [] => []
  | x :: xs => pyInsert le x (pySort le xs)

/-- Parse a two-digit number. -/
def twoDigits (a b : Char) : Option ℕ :=
  if a.isDigit && b.isDigit then some ((a.toNat - 48) * 10 + (b.toNat - 48)) else none

/-- Parse a fractional-seconds suffix of exactly 3 or 6 digits, in microseconds. -/
def parseFrac : List Char → Option ℕ
  | [a, b, c] =>
    if a.isDigit && b.isDigit && c.isDigit then
      some (((a.toNat - 48) * 100 + (b.toNat - 48) * 10 + (c.toNat - 48)) * 1000)
    else none
  | [a, b, c, d, e, f] =>
    if a.isDigit && b.isDigit && c.isDigit && d.isDigit && e.isDigit && f.isDigit then
      some ((a.toNat - 48) * 100000 + (b.toNat - 48) * 10000 + (c.toNat - 48) * 1000 +
            (d.toNat - 48) * 100 + (e.toNat - 48) * 10 + (f.toNat - 48))
    else none
  | _ => none

/-- Parse the `HH[:MM[:SS[.fff[fff]]]]` part of an ISO timestamp, as
microseconds within the day. -/
def parseIsoTime : List Char → Option ℕ
  | h1 :: h2 :: rest => do
    let h ← twoDigits h1 h2
    if h ≥ 24 then none else
    match rest with
    | [] => some (h * 3600000000)
    | ':' :: m1 :: m2 :: rest2 => do
      let mi ← twoDigits m1 m2
      if mi ≥ 60 then none else
      match rest2 with
      | [] => some (h * 3600000000 + mi * 60000000)
      | ':' :: s1 :: s2 :: rest3 => do
        let sec ← twoDigits s1 s2
        if sec ≥ 60 then none else
        match rest3 with
        | [] => some (h * 3600000000 + mi * 60000000 + sec * 1000000)
        | '.' :: frac => do
          let us ← parseFrac frac
          some (h * 3600000000 + mi * 60000000 + sec * 1000000 + us)
        | _ => none
      | _ => none
    | _ => none
  | _ => none

/-- Gregorian leap year, as used by `datetime.date`. -/
def isLeapYear (y : ℕ) : Bool := (y % 4 == 0 && y % 100 != 0) || y % 400 == 0

/-- Number of days in a month of the proleptic Gregorian calendar. -/
def daysInMonth (y m : ℕ) : ℕ :=
  if m = 2 then (if isLeapYear y then 29 else 28)
  else if m = 4 || m = 6 || m = 9 || m = 11 then 30
  else 31

/-- Leap years among years `1 .. y`. -/
def leapsUpTo (y : ℕ) : ℕ := y / 4 - y / 100 + y / 400

/-- Days in the months `1 .. m-1` of year `y`. -/
def daysBeforeMonth (y m : ℕ) : ℕ :=
  (List.range (m - 1)).foldl (fun acc i => acc + daysInMonth y (i + 1)) 0

/-- Proleptic-Gregorian ordinal of a calendar day (`datetime.toordinal`:
day 1 is 0001-01-01), so that naive instants compare chronologically. -/
def dayNumber (y m d : ℕ) : ℕ :=
  365 * (y - 1) + leapsUpTo (y - 1) + daysBeforeMonth y m + d

/-- The naive instant `(y, m, d)` plus `timeUs` microseconds, in microseconds
since the calendar's origin. -/
def isoKeyOf (y m d timeUs : ℕ) : ℤ :=
  ((dayNumber y m d * 86400000000 + timeUs : ℕ) : ℤ)

/-- The sort key of `datetime.min` (0001-01-01 00:00:00, naive). -/
def datetimeMinKey : ℤ := isoKeyOf 1 1 1 0

/-- A parsed `datetime`: its naive instant, and its UTC offset in microseconds
when timezone-aware (`none` when naive). -/
structure IsoDt where
  key : ℤ
  tz : Option ℤ

/-- Split a time string at the first `+` or `-`, which begins the UTC-offset
part (`fromisoformat` splits the time portion the same way; the date's dashes
were consumed before this point). -/
def splitAtSign : List Char → List Char × List Char
  | [] => ([], [])
  | c :: rest =>
    if c = '+' || c = '-' then ([], c :: rest)
    else
      let p := splitAtSign rest
      (c :: p.1, p.2)

/-- Parse a UTC-offset suffix starting at its sign: `±HH:MM[:SS[.ffffff]]`
(the only shapes `fromisoformat` accepts for the offset).  The components are
not range-checked individually — `timedelta` normalises them — but the total
offset must be strictly less than 24 hours (`timezone` raises otherwise). -/
def parseTzTail : List Char → Option ℤ
  | sign :: tz => do
    let sgn : ℤ := if sign = '-' then -1 else 1
    let totalUs ← (match tz with
      | [h1, h2, ':', m1, m2] => do
        let hh ← twoDigits h1 h2
        let mm ← twoDigits m1 m2
        some ((hh * 3600 + mm * 60) * 1000000)
      | [h1, h2, ':', m1, m2, ':', s1, s2] => do
        let hh ← twoDigits h1 h2
        let mm ← twoDigits m1 m2
        let ss ← twoDigits s1 s2
        some ((hh * 3600 + mm * 60 + ss) * 1000000)
      | [h1, h2, ':', m1, m2, ':', s1, s2, '.', f1, f2, f3, f4, f5, f6] => do
        let hh ← twoDigits h1 h2
        let mm ← twoDigits m1 m2
        let ss ← twoDigits s1 s2
        let us ← parseFrac [f1, f2, f3, f4, f5, f6]
        some ((hh * 3600 + mm * 60 + ss) * 1000000 + us)
      | _ => none)
    if 86400000000 ≤ totalUs then none else some (sgn * (totalUs : ℤ))
  | [] => none

/-- Parse the time-of-day and optional UTC offset of an ISO timestamp. -/
def parseTimeAndTz (cs : List Char) : Option (ℕ × Option ℤ) :=
  match splitAtSign cs with
  | (mainPart, []) => do
    let us ← parseIsoTime mainPart
    some (us, none)
  | (mainPart, tzPart) => do
    let us ← parseIsoTime mainPart
    let tz ← parseTzTail tzPart
    some (us, some tz)

/-- Model of `datetime.fromisoformat` (the strict inverse-of-`isoformat()`
grammar: `YYYY-MM-DD[*HH[:MM[:SS[.fff[fff]]]]][±HH:MM[:SS[.ffffff]]]` with a
single arbitrary separator character at position 10): the date must be a valid
proleptic-Gregorian calendar date (year ≥ 1, month 1–12, day within the
month's length including leap years), the time components are range-checked as
`datetime` does, and a timezone suffix yields an aware value carrying its
offset.  `none` models `ValueError`. -/
def parseIso (str : String) : Option IsoDt :=
  match str.data with
  | y1 :: y2 :: y3 :: y4 :: '-' :: m1 :: m2 :: '-' :: d1 :: d2 :: rest => do
    let yhi ← twoDigits y1 y2
    let ylo ← twoDigits y3 y4
    let year := yhi * 100 + ylo
    let mo ← twoDigits m1 m2
    let dy ← twoDigits d1 d2
    if year = 0 || mo = 0 || 12 < mo || dy = 0 || daysInMonth year mo < dy then none else
    match rest with
    | [] => some ⟨isoKeyOf year mo dy 0, none⟩
    | _ :: timePart => do
      let ut ← parseTimeAndTz timePart
      some ⟨isoKeyOf year mo dy ut.1, ut.2⟩
  | _ => none

/-! ### Input structures (the transformer's input contract) -/

/-- A raw heartbeat record.  `Option` marks key presence; `time` holds a string
when present and `ping` a number or JSON null. -/
structure RawHeartbeat where
  id : Option Val := none
  monitor_id : Option Val := none
  monitorID : Option Val := none
  status : Option Val := none
  time : Option String := none
  msg : Option Val := none
  ping : Option (Option ℚ) := none
  duration : Option Val := none
  important : Option Val := none
  down_count : Option Val := none

/-- Python falsiness of the heartbeat dictionary (no keys at all). -/
def RawHeartbeat.isEmpty (hb : RawHeartbeat) : Bool :=
  hb.id.isNone && hb.monitor_id.isNone && hb.monitorID.isNone && hb.status.isNone &&
  hb.time.isNone && hb.msg.isNone && hb.ping.isNone && hb.duration.isNone &&
  hb.important.isNone && hb.down_count.isNone

/-- The `subject` / `issuer` distinguished-name dictionaries of `certInfo`. -/
structure SubjectIn where
  CN : Option Val := none
  C : Option Val := none
  ST : Option Val := none
  L : Option Val := none
  O : Option Val := none

def SubjectIn.empty : SubjectIn := {}

/-- The nested `certInfo` dictionary. -/
structure CertDetails where
  subject : Option SubjectIn := none
  issuer : Option SubjectIn := none
  subjectaltname : Option Val := none
  infoAccess : Option Val := none
  fingerprint : Option Val := none
  serialNumber : Option Val := none
  signatureAlgorithm : Option Val := none

def CertDetails.empty : CertDetails := {}

/-- A raw certificate-check payload. -/
structure CertIn where
  valid : Option Val := none
  certInfo : Option CertDetails := none
  valid_from : Option Val := none
  valid_to : Option Val := none
  days_remaining : Option Val := none

def CertIn.empty : CertIn := {}

/-- Python falsiness of the certificate dictionary (no keys at all). -/
def CertIn.isEmpty (c : CertIn) : Bool :=
  c.valid.isNone && c.certInfo.isNone && c.valid_from.isNone && c.valid_to.isNone &&
  c.days_remaining.isNone

/-- The raw `monitor` mapping (only the keys the statistics transformer reads).
`active` and `maintenance` record the truthiness of the stored values, which is
all the transformer uses of them. -/
structure MonitorIn where
  id : Option Val := none
  name : Option (Option String) := none
  url : Option Val := none
  type' : Option (Option String) := none
  description : Option Val := none
  method : Option Val := none
  active : Bool := false
  maintenance : Bool := false
  interval : Option Val := none
  timeout : Option Val := none
  tags : Option Val := none
  notificationIDList : Option Val := none
  weight : Option Val := none
  accepted_statuscodes : Option Val := none
  maxredirects : Option Val := none
  dns_resolve_type : Option Val := none
  dns_resolve_server : Option Val := none

def MonitorIn.empty : MonitorIn := {}

/-- One monitor's raw bundle
`{monitor, heartbeats, important_heartbeats, uptime, cert_info, avg_ping}`.
The `uptime` mapping sends window labels to a ratio or JSON null. -/
structure MonitorBundle where
  monitor : Option MonitorIn := none
  heartbeats : Option (List RawHeartbeat) := none
  important_heartbeats : Option (List RawHeartbeat) := none
  uptime : Option (List (String × Option ℚ)) := none
  cert_info : Option CertIn := none
  avg_ping : Option Val := none

/-- Python falsiness of the bundle dictionary (no keys at all). -/
def MonitorBundle.isEmpty (d : MonitorBundle) : Bool :=
  d.monitor.isNone && d.heartbeats.isNone && d.important_heartbeats.isNone &&
  d.uptime.isNone && d.cert_info.isNone && d.avg_ping.isNone

/-- The fleet-level input: monitor id → bundle (ids already integral; the
source applies `int()` to the string keys), plus raw instance info. -/
structure FleetIn where
  monitors : Option (List (ℤ × MonitorBundle)) := none
  uptime_kuma_info : Option (List (String × Val)) := none

/-- Python falsiness of the fleet input dictionary. -/
def FleetIn.isEmpty (data : FleetIn) : Bool :=
  data.monitors.isNone && data.uptime_kuma_info.isNone

/-! ### Per-entity transformers -/

open UptimeKumaResource (clean_value)

/-- `d.get(k)` for a string-valued key (`None` when absent). -/
def optS : Option String → Val
  | none => .null
  | some str => .s str

/-- `d.get(k)` for a string-or-null-valued key (`None` when absent or null). -/
def optSS : Option (Option String) → Val
  | none => .null
  | some none => .null
  | some (some str) => .s str

/-- The ping-quality tier thresholds shared by `HeartbeatResource.transform`
and `MonitorStatisticsResource.transform`: applied to a cleaned ping value,
`Val.num` is exactly the source's `!= "-" and isinstance(..., (int, float))`. -/
def pingQuality : Val → Val
  | .num p =>
    if p < 100 then .s "excellent"
    else if p < 300 then .s "good"
    else if p < 600 then .s "fair"
    else .s "poor"
  | _ => .s "-"

/-- `HeartbeatResource.transform`. -/
def HeartbeatResource.transform (hb : RawHeartbeat) : Val :=
  if hb.isEmpty then .obj [] else
  let monitor_id := hb.monitor_id.getD (hb.monitorID.getD .null)
  let pingClean := clean_value (match hb.ping with | some (some q) => .num q | _ => .null)
  .obj [("id", clean_value (optV hb.id)),
        ("monitor_id", clean_value monitor_id),
        ("status", clean_value (optV hb.status)),
        ("time", clean_value (optS hb.time)),
        ("msg", clean_value (optV hb.msg)),
        ("ping", pingClean),
        ("duration", clean_value (optV hb.duration)),
        ("important", .b (pyTruthy (hb.important.getD (.b false)))),
        ("down_count", clean_value (hb.down_count.getD (.num 0))),
        ("ping_quality", pingQuality pingClean)]

/-- `CertificateInfoResource.transform`. -/
def CertificateInfoResource.transform (c : CertIn) : Val :=
  if c.isEmpty then .obj [] else
  let certDetails := c.certInfo.getD CertDetails.empty
  let subj := certDetails.subject.getD SubjectIn.empty
  let iss := certDetails.issuer.getD SubjectIn.empty
  let daysRemaining := clean_value (optV c.days_remaining)
  .obj [("valid", clean_value (optV c.valid)),
        ("subject_cn", clean_value (optV subj.CN)),
        ("subject_c", clean_value (optV subj.C)),
        ("subject_st", clean_value (optV subj.ST)),
        ("subject_l", clean_value (optV subj.L)),
        ("subject_o", clean_value (optV subj.O)),
        ("issuer_cn", clean_value (optV iss.CN)),
        ("issuer_c", clean_value (optV iss.C)),
        ("issuer_o", clean_value (optV iss.O)),
        ("subject_alt_name", clean_value (optV certDetails.subjectaltname)),
        ("info_access", clean_value (optV certDetails.infoAccess)),
        ("valid_from", clean_value (optV c.valid_from)),
        ("valid_to", clean_value (optV c.valid_to)),
        ("days_remaining", daysRemaining),
        ("fingerprint", clean_value (optV certDetails.fingerprint)),
        ("serial_number", clean_value (optV certDetails.serialNumber)),
        ("signature_algorithm", clean_value (optV certDetails.signatureAlgorithm)),
        ("expiry_status",
          match daysRemaining with
          | .num d =>
            if d ≤ 0 then .s "expired"
            else if d ≤ 7 then .s "critical"
            else if d ≤ 30 then .s "warning"
            else .s "ok"
          | _ => .s "-")]

/-- `UptimeResource.transform`: for each window label, the cleaned ratio, the
percentage (`round(value * 100, 2)` when the ratio is present) and, in a second
pass, the quality tier read back from the percentage entry. -/
def UptimeResource.transform (u : List (String × Option ℚ)) : Val :=
  if u.isEmpty then .obj [] else
  let base := u.foldl (fun acc pv =>
    pySet (pySet acc (pv.1 ++ "h") (match pv.2 with | some q => .num q | none => .s "-"))
      (pv.1 ++ "h_percent")
      (match pv.2 with | some q => .num (pyRound 2 (q * 100)) | none => .s "-")) (.obj [])
  u.foldl (fun acc pv =>
    pySet acc (pv.1 ++ "h_quality")
      (match pyGet acc (pv.1 ++ "h_percent") with
       | some (.num x) =>
         if x ≥ 999/10 then Val.s "excellent"
         else if x ≥ 99 then .s "good"
         else if x ≥ 95 then .s "fair"
         else .s "poor"
       | _ => .s "-")) base

/-- `UptimeKumaInfoResource.transform`: snake-cased, cleaned copy; when both
memory keys landed in the result, `memory_usage_percent` is the rounded ratio,
with `TypeError` / `ZeroDivisionError` caught to the sentinel. -/
def UptimeKumaInfoResource.transform (info : List (String × Val)) : Val :=
  if info.isEmpty then .obj [] else
  let base := info.foldl
    (fun acc kv => pySet acc (UptimeKumaResource.camel_to_snake kv.1) (clean_value kv.2)) (.obj [])
  match pyGet base "mem_total", pyGet base "mem_used" with
  | some t, some u =>
    if !valBeq t (.s "-") && !valBeq u (.s "-") then
      match u, t with
      | .num a, .num bTot =>
        if bTot = 0 then pySet base "memory_usage_percent" (.s "-")
        else pySet base "memory_usage_percent" (.num (pyRound 2 (a / bTot * 100)))
      | _, _ => pySet base "memory_usage_percent" (.s "-")
    else pySet base "memory_usage_percent" (.s "-")
  | _, _ => base

/-! ### Monitor statistics aggregator -/

namespace MonitorStatisticsResource

def heartbeatsOf (d : MonitorBundle) : List RawHeartbeat := d.heartbeats.getD []

def importantOf (d : MonitorBundle) : List RawHeartbeat := d.important_heartbeats.getD []

def monitorOf (d : MonitorBundle) : MonitorIn := d.monitor.getD MonitorIn.empty

/-- The pings the source keeps: `hb.get("ping") is not None` over the
concatenation of both heartbeat lists. -/
def validPings (l : List RawHeartbeat) : List ℚ := l.filterMap fun hb => hb.ping.join

/-- `avg_ping_calculated` before cleaning: mean of the valid pings, `None` when
there are none. -/
def avg_ping_calculated (d : MonitorBundle) : Option ℚ :=
  let vp := validPings (heartbeatsOf d ++ importantOf d)
  if vp.isEmpty then none else some (vp.sum / (vp.length : ℚ))

/-- `clean_value(avg_ping_calculated)`. -/
def avgPingClean (d : MonitorBundle) : Val :=
  match avg_ping_calculated d with
  | none => .s "-"
  | some q => .num q

def uptimeDataOf (d : MonitorBundle) : Val := UptimeResource.transform (d.uptime.getD [])

/-- `hb.get("status")`. -/
def statusVal (hb : RawHeartbeat) : Val := optV hb.status

/-- Count of adjacent status transitions across `heartbeats` in input order. -/
def status_changes (l : List RawHeartbeat) : ℕ :=
  (l.zip l.tail).countP fun ab => !valBeq (statusVal ab.1) (statusVal ab.2)

/-- `hb.get("important", False)` truthiness. -/
def importantTruthy (hb : RawHeartbeat) : Bool := pyTruthy (hb.important.getD (.b false))

/-- Time of the first heartbeat flagged important, `None` when there is none
(cleaned at the output boundary). -/
def last_status_change (l : List RawHeartbeat) : Val :=
  match l.find? importantTruthy with
  | some hb => optS hb.time
  | none => .null

/-- `round(statistics.stdev(valid_pings), 2)` when at least two valid pings
exist, else the sentinel.  (`statistics.StatisticsError` cannot fire under the
length guard.) -/
def ping_stability (d : MonitorBundle) : Val :=
  let vp := validPings (heartbeatsOf d ++ importantOf d)
  if 1 < vp.length then .num (pyRound 2 (ratSqrt (sampleVariance vp))) else .s "-"

/-- A heartbeat's sort-key datetime: absent, empty or sentinel times give the
naive `datetime.min`, anything else must parse; `none` models the key
function raising `ValueError`. -/
def timeKeyOf (hb : RawHeartbeat) : Option IsoDt :=
  match hb.time with
  | none => some ⟨datetimeMinKey, none⟩
  | some str =>
    if str = "" || str = "-" then some ⟨datetimeMinKey, none⟩ else parseIso str

/-- The heartbeat's key exists and is offset-naive. -/
def keyNaive (hb : RawHeartbeat) : Bool :=
  match timeKeyOf hb with
  | some dt => dt.tz.isNone
  | none => false

/-- The heartbeat's key exists and is offset-aware. -/
def keyAware (hb : RawHeartbeat) : Bool :=
  match timeKeyOf hb with
  | some dt => dt.tz.isSome
  | none => false

/-- The in-place sort completes without an exception: every key computation
succeeds and all keys are comparable, i.e. all naive or all aware (Python
raises `TypeError` on any naive/aware comparison, and with both kinds present
some adjacent pair is mixed, so the sort compares one).  An all-naive list
includes the `datetime.min` defaults; an all-aware list can have none. -/
def sortOk (l : List RawHeartbeat) : Bool :=
  l.all keyNaive || l.all keyAware

/-- The instant a heartbeat's key compares by when the sort succeeds: the
naive instant for naive keys, the UTC instant (naive minus offset) for aware
keys (aware datetimes compare by UTC instant).  `0` on a parse failure, which
only occurs on lists sorted by the fallback. -/
def sortKey (hb : RawHeartbeat) : ℤ :=
  match timeKeyOf hb with
  | some dt => dt.key - dt.tz.getD 0
  | none => 0

/-- `x.get("time", "")`, the fallback sort key. -/
def rawTime (hb : RawHeartbeat) : String := hb.time.getD ""

/-- Stable-descending comparison by parsed timestamp (`reverse=True`). -/
def descByParsed (a b : RawHeartbeat) : Bool := decide (sortKey b ≤ sortKey a)

/-- Stable-descending comparison by raw time string. -/
def descByRaw (a b : RawHeartbeat) : Bool := decide (rawTime b ≤ rawTime a)

/-- The combined heartbeat list after the in-place sort: by parsed instant
descending when the keyed sort succeeds, otherwise entirely by raw string
descending.  (When a key computation raises, CPython's sort has not yet
permuted the list, so the fallback sorts the original order exactly as here;
when a naive/aware comparison raises mid-sort the list may be partially
permuted, so the relative order of equal raw times in that fallback is
implementation-defined and the model's stable sort of the original order
fixes one choice.) -/
def sortCombined (l : List RawHeartbeat) : List RawHeartbeat :=
  if l.isEmpty then l
  else if sortOk l then pySort descByParsed l
  else pySort descByRaw l

/-- `monitor.get("name", "Unknown")` (a present null name stays `None`). -/
def monNameOf (d : MonitorBundle) : Val :=
  match (monitorOf d).name with
  | none => .s "Unknown"
  | some none => .null
  | some (some str) => .s str

/-- One structured log entry. -/
def logEntryOf (monName : Val) (hb : RawHeartbeat) : Val :=
  .obj [("name", monName),
        ("status", .s (if valBeq (statusVal hb) (.num 1) then "UP" else "DOWN")),
        ("time", match hb.time with | some str => .s str | none => .s "-"),
        ("message", hb.msg.getD (.s "-"))]

/-- The emitted `logs` list: one entry per merged, sorted heartbeat. -/
def logsOf (d : MonitorBundle) : List Val :=
  (sortCombined (heartbeatsOf d ++ importantOf d)).map (logEntryOf (monNameOf d))

/-- `health_score`: computed when `uptime_data.get("24h_percent", "-")` and the
cleaned `avg_ping_calculated` are both non-sentinel (then necessarily numeric
here; a non-numeric operand would raise `TypeError`, which the source catches
to the sentinel, the same result as the catch-all arm). -/
def health_score (d : MonitorBundle) : Val :=
  match pyGetD (uptimeDataOf d) "24h_percent" (.s "-"), avgPingClean d with
  | .num pu, .num p => .num (pyRound 1 (pu * (7/10) + max 0 (100 - p / 10) * (3/10)))
  | _, _ => .s "-"

/-- The body of `MonitorStatisticsResource.transform` (non-empty input). -/
def transformBody (d : MonitorBundle) : Val :=
  let monitor := monitorOf d
  .obj [("id", clean_value (optV monitor.id)),
        ("name", clean_value (optSS monitor.name)),
        ("url", clean_value (optV monitor.url)),
        ("type", clean_value (optSS monitor.type')),
        ("description", clean_value (optV monitor.description)),
        ("method", clean_value (optV monitor.method)),
        ("status", .num (if monitor.active then 1 else 0)),
        ("active", .b monitor.active),
        ("maintenance", .b monitor.maintenance),
        ("interval", clean_value (optV monitor.interval)),
        ("timeout", clean_value (optV monitor.timeout)),
        ("avg_ping", clean_value (optV d.avg_ping)),
        ("avg_ping_calculated", avgPingClean d),
        ("uptime", uptimeDataOf d),
        ("cert_info", CertificateInfoResource.transform (d.cert_info.getD CertIn.empty)),
        ("recent_heartbeats", .list (((heartbeatsOf d).take 10).map HeartbeatResource.transform)),
        ("heartbeats_count", .num ((heartbeatsOf d).length : ℚ)),
        ("important_heartbeats", .list (((importantOf d).take 25).map HeartbeatResource.transform)),
        ("important_heartbeats_count", .num ((importantOf d).length : ℚ)),
        ("tags", clean_value (monitor.tags.getD (.list []))),
        ("notification_ids", clean_value (monitor.notificationIDList.getD (.list []))),
        ("weight", clean_value (optV monitor.weight)),
        ("accepted_statuscodes", clean_value (monitor.accepted_statuscodes.getD (.list []))),
        ("maxredirects", clean_value (optV monitor.maxredirects)),
        ("dns_resolve_type", clean_value (optV monitor.dns_resolve_type)),
        ("dns_resolve_server", clean_value (optV monitor.dns_resolve_server)),
        ("status_changes_count", .num ((status_changes (heartbeatsOf d)) : ℚ)),
        ("last_status_change", clean_value (last_status_change (heartbeatsOf d))),
        ("ping_stability", ping_stability d),
        ("logs", .list (logsOf d)),
        ("ping_quality", pingQuality (avgPingClean d)),
        ("health_score", health_score d)]

/-- `MonitorStatisticsResource.transform`. -/
def transform (d : MonitorBundle) : Val :=
  if d.isEmpty then .obj [] else transformBody d

end MonitorStatisticsResource

/-! ### Fleet statistics aggregator -/

namespace AllMonitorsStatisticsResource

/-- Per-monitor statistics with the `id` field forced to the (integral)
monitor key: `monitor_stats["id"] = int(monitor_id)`. -/
def monitorStats (im : ℤ × MonitorBundle) : Val :=
  pySet (MonitorStatisticsResource.transform im.2) "id" (.num (im.1 : ℚ))

/-- `x.get("name", "").lower()`; transformed monitors always hold a string
there (or no key at all), so non-strings never reach `.lower()`. -/
def nameKey (m : Val) : String :=
  match pyGetD m "name" (.s "") with
  | .s str => str.toLower
  | _ => ""

/-- `monitors`: one transformed record per bundle, sorted by lowercase name
(Python's stable sort). -/
def monitorsOf (data : FleetIn) : List Val :=
  pySort (fun a b => decide (nameKey a ≤ nameKey b))
    ((data.monitors.getD []).map monitorStats)

/-- Membership in the `up` group: `m.get("status") == 1 and not
m.get("maintenance")`. -/
def upPred (m : Val) : Bool :=
  valBeq (optV (pyGet m "status")) (.num 1) && !pyTruthy (optV (pyGet m "maintenance"))

/-- Membership in the `down` group: `m.get("status") == 0 and not
m.get("maintenance")`. -/
def downPred (m : Val) : Bool :=
  valBeq (optV (pyGet m "status")) (.num 0) && !pyTruthy (optV (pyGet m "maintenance"))

/-- Membership in the `maintenance` group: `m.get("maintenance")` truthy. -/
def maintPred (m : Val) : Bool := pyTruthy (optV (pyGet m "maintenance"))

/-- Simplified record for an up monitor. -/
def simplifyUp (m : Val) : Val :=
  .obj [("id", optV (pyGet m "id")),
        ("name", optV (pyGet m "name")),
        ("url", optV (pyGet m "url")),
        ("status", optV (pyGet m "status")),
        ("active", optV (pyGet m "active")),
        ("type", optV (pyGet m "type")),
        ("avg_ping", optV (pyGet m "avg_ping_calculated")),
        ("ping_quality", optV (pyGet m "ping_quality")),
        ("uptime_24h", optV (pyGet (pyGetD m "uptime" (.obj [])) "24h_percent")),
        ("health_score", optV (pyGet m "health_score"))]

/-- Simplified record for a down monitor, with `last_error` / `down_since`
from the first important heartbeat when that list is truthy. -/
def simplifyDown (m : Val) : Val :=
  .obj [("id", optV (pyGet m "id")),
        ("name", optV (pyGet m "name")),
        ("url", optV (pyGet m "url")),
        ("status", optV (pyGet m "status")),
        ("active", optV (pyGet m "active")),
        ("type", optV (pyGet m "type")),
        ("last_error",
          match pyGet m "important_heartbeats" with
          | some (.list (h :: _)) => optV (pyGet h "msg")
          | _ => .s "-"),
        ("down_since",
          match pyGet m "important_heartbeats" with
          | some (.list (h :: _)) => optV (pyGet h "time")
          | _ => .s "-")]

/-- Simplified record for a maintenance monitor. -/
def simplifyMaint (m : Val) : Val :=
  .obj [("id", optV (pyGet m "id")),
        ("name", optV (pyGet m "name")),
        ("url", optV (pyGet m "url")),
        ("status", optV (pyGet m "status")),
        ("active", optV (pyGet m "active")),
        ("type", optV (pyGet m "type"))]

/-- Python `sum` over a list of fetched values: defined exactly on all-numeric
lists, `none` models the `TypeError` a non-numeric element raises. -/
def sumNums : List Val → Option ℚ
  | [] => some 0
  | v :: vs =>
    match v, sumNums vs with
    | .num q, some acc => some (q + acc)
    | _, _ => none

/-- The non-sentinel, non-maintenance health scores
(`m.get("health_score")`, possibly `None` for a key-less record). -/
def healthSel (data : FleetIn) : List Val :=
  ((monitorsOf data).filter fun m =>
    !valBeq (optV (pyGet m "health_score")) (.s "-") &&
    !pyTruthy (optV (pyGet m "maintenance"))).map fun m => optV (pyGet m "health_score")

/-- `avg_health_score`: mean rounded to 1 decimal; the surrounding
`try/except (TypeError, ZeroDivisionError)` turns a non-numeric element into
the sentinel. -/
def avg_health_score (data : FleetIn) : Val :=
  let sel := healthSel data
  if sel.isEmpty then .s "-" else
  match sumNums sel with
  | some total => .num (pyRound 1 (total / (sel.length : ℚ)))
  | none => .s "-"

/-- The non-sentinel, non-maintenance `avg_ping_calculated` values feeding
`avg_response_time`. -/
def rtSel (data : FleetIn) : List Val :=
  ((monitorsOf data).filter fun m =>
    !valBeq (optV (pyGet m "avg_ping_calculated")) (.s "-") &&
    !pyTruthy (optV (pyGet m "maintenance"))).map fun m =>
      optV (pyGet m "avg_ping_calculated")

/-- `avg_response_time` when it evaluates without raising (the `sum` here is
not wrapped in any `try`; a non-numeric element instead aborts the whole
transform, which `transform` models as an error). -/
def avg_response_time (data : FleetIn) : Val :=
  let sel := rtSel data
  if sel.isEmpty then .s "-" else
  match sumNums sel with
  | some total => .num (pyRound 2 (total / (sel.length : ℚ)))
  | none => .s "-"

/-- The monitor types feeding `monitor_types`: `m.get("type")` over monitors
whose type is not the sentinel. -/
def typeSel (data : FleetIn) : List Val :=
  ((monitorsOf data).filter fun m =>
    !valBeq (optV (pyGet m "type")) (.s "-")).map fun m => optV (pyGet m "type")

/-- First-occurrence deduplication standing in for Python's `set` (whose
iteration order is unspecified; no claim depends on this order). -/
def dedupVals (l : List Val) : List Val :=
  l.foldl (fun acc v => if acc.any (valBeq v) then acc else acc ++ [v]) []

/-- `up_percentage`: `round(|up| / (|up| + |down|) * 100, 2)`, and the integer
`0` when there are no up or down monitors. -/
def up_percentage (data : FleetIn) : Val :=
  let u := ((monitorsOf data).filter upPred).length
  let dn := ((monitorsOf data).filter downPred).length
  if 0 < u + dn then .num (pyRound 2 ((u : ℚ) / ((u : ℚ) + (dn : ℚ)) * 100)) else .num 0

/-- `monitors_by_type` entries.  A non-string type value can occur only on
inputs where the transform raises before returning (see `transform`), so
restricting the keys to strings loses nothing on successful outputs. -/
def monitorsByType (data : FleetIn) : List (String × Val) :=
  (dedupVals (typeSel data)).filterMap fun t =>
    match t with
    | .s ts =>
      some (ts, Val.num ((((monitorsOf data).filter fun m =>
        valBeq (optV (pyGet m "type")) (.s ts)).length : ℚ)))
    | _ => none

/-- The returned fleet dictionary (evaluated only when no entry raises);
`now` stands for `datetime.now().isoformat()`. -/
def transformBody (now : String) (data : FleetIn) : Val :=
  .obj [("uptime_kuma_info", UptimeKumaInfoResource.transform (data.uptime_kuma_info.getD [])),
        ("monitors", .list (monitorsOf data)),
        ("monitors_count", .num ((monitorsOf data).length : ℚ)),
        ("up_monitors", .list (((monitorsOf data).filter upPred).map simplifyUp)),
        ("down_monitors", .list (((monitorsOf data).filter downPred).map simplifyDown)),
        ("maintenance_monitors", .list (((monitorsOf data).filter maintPred).map simplifyMaint)),
        ("up_monitors_count", .num ((((monitorsOf data).filter upPred).length : ℚ))),
        ("down_monitors_count", .num ((((monitorsOf data).filter downPred).length : ℚ))),
        ("maintenance_monitors_count", .num ((((monitorsOf data).filter maintPred).length : ℚ))),
        ("up_percentage", up_percentage data),
        ("timestamp", .s now),
        ("avg_health_score", avg_health_score data),
        ("monitor_types", .list (dedupVals (typeSel data))),
        ("monitors_by_type", .obj (monitorsByType data)),
        ("avg_response_time", avg_response_time data)]

/-- `AllMonitorsStatisticsResource.transform`.  The `avg_response_time` entry
sums `m.get("avg_ping_calculated")` values outside any `try`; when the
selection is non-empty and contains a non-numeric value (a record without the
key yields `None`), the `TypeError` escapes the whole call, modelled as
`Except.error`. -/
def transform (now : String) (data : FleetIn) : Except Unit Val :=
  if data.isEmpty then .ok (.obj []) else
  if !(rtSel data).isEmpty && (sumNums (rtSel data)).isNone then .error ()
  else .ok (transformBody now data)

end AllMonitorsStatisticsResource

/-! ### Basic lemmas about the helpers -/

theorem cleanList_eq_map (xs : List Val) :
    UptimeKumaResource.cleanList xs = xs.map UptimeKumaResource.clean_value := by
  induction xs with
  | nil => rfl
  | cons v vs ih =>
    show UptimeKumaResource.clean_value v :: UptimeKumaResource.cleanList vs =
      UptimeKumaResource.clean_value v :: vs.map UptimeKumaResource.clean_value
    rw [ih]

theorem cleanObj_eq_map (kvs : List (String × Val)) :
    UptimeKumaResource.cleanObj kvs =
      kvs.map fun kv => (kv.1, UptimeKumaResource.clean_value kv.2) := by
  induction kvs with
  | nil => rfl
  | cons kv rest ih =>
    obtain ⟨k, v⟩ := kv
    show (k, UptimeKumaResource.clean_value v) :: UptimeKumaResource.cleanObj rest =
      (k, UptimeKumaResource.clean_value v) ::
        rest.map fun kv => (kv.1, UptimeKumaResource.clean_value kv.2)
    rw [ih]

theorem noNullList_eq_all (xs : List Val) : noNullList xs = xs.all noNull := by
  induction xs with
  | nil => rfl
  | cons v vs ih => simp [noNullList, ih, List.all_cons]

theorem noNullObj_eq_all (kvs : List (String × Val)) :
    noNullObj kvs = kvs.all fun kv => noNull kv.2 := by
  induction kvs with
  | nil => rfl
  | cons kv rest ih => obtain ⟨k, v⟩ := kv; simp [noNullObj, ih, List.all_cons]

mutual
theorem noNull_clean_value : (v : Val) → noNull (UptimeKumaResource.clean_value v) = true
  | .null => rfl
  | .b _ => rfl
  | .num _ => rfl
  | .s str => by
    show noNull (if str = "" then Val.s "-" else .s str) = true
    by_cases h : str = "" <;> simp [h, noNull]
  | .list xs => by
    show noNullList (UptimeKumaResource.cleanList xs) = true
    exact noNullList_cleanList xs
  | .obj kvs => by
    show noNullObj (UptimeKumaResource.cleanObj kvs) = true
    exact noNullObj_cleanObj kvs
theorem noNullList_cleanList : (xs : List Val) → noNullList (UptimeKumaResource.cleanList xs) = true
  | [] => rfl
  | v :: vs => by
    show (noNull (UptimeKumaResource.clean_value v) && noNullList (UptimeKumaResource.cleanList vs)) = true
    rw [noNull_clean_value v, noNullList_cleanList vs]; rfl
theorem noNullObj_cleanObj : (kvs : List (String × Val)) → noNullObj (UptimeKumaResource.cleanObj kvs) = true
  | [] => rfl
  | (k, v) :: rest => by
    show (noNull (UptimeKumaResource.clean_value v) && noNullObj (UptimeKumaResource.cleanObj rest)) = true
    rw [noNull_clean_value v, noNullObj_cleanObj rest]; rfl
end

mutual
theorem clean_value_idem :
    (v : Val) → UptimeKumaResource.clean_value (UptimeKumaResource.clean_value v) =
      UptimeKumaResource.clean_value v
  | .null => rfl
  | .b _ => rfl
  | .num _ => rfl
  | .s str => by
    show UptimeKumaResource.clean_value (if str = "" then Val.s "-" else .s str) =
      if str = "" then Val.s "-" else .s str
    by_cases h : str = "" <;> simp [h, UptimeKumaResource.clean_value]
  | .list xs => by
    show Val.list (UptimeKumaResource.cleanList (UptimeKumaResource.cleanList xs)) =
      .list (UptimeKumaResource.cleanList xs)
    rw [cleanList_idem xs]
  | .obj kvs => by
    show Val.obj (UptimeKumaResource.cleanObj (UptimeKumaResource.cleanObj kvs)) =
      .obj (UptimeKumaResource.cleanObj kvs)
    rw [cleanObj_idem kvs]
theorem cleanList_idem :
    (xs : List Val) → UptimeKumaResource.cleanList (UptimeKumaResource.cleanList xs) =
      UptimeKumaResource.cleanList xs
  | [] => rfl
  | v :: vs => by
    show UptimeKumaResource.clean_value (UptimeKumaResource.clean_value v) ::
        UptimeKumaResource.cleanList (UptimeKumaResource.cleanList vs) =
      UptimeKumaResource.clean_value v :: UptimeKumaResource.cleanList vs
    rw [clean_value_idem v, cleanList_idem vs]
theorem cleanObj_idem :
    (kvs : List (String × Val)) → UptimeKumaResource.cleanObj (UptimeKumaResource.cleanObj kvs) =
      UptimeKumaResource.cleanObj kvs
  | [] => rfl
  | (k, v) :: rest => by
    show (k, UptimeKumaResource.clean_value (UptimeKumaResource.clean_value v)) ::
        UptimeKumaResource.cleanObj (UptimeKumaResource.cleanObj rest) =
      (k, UptimeKumaResource.clean_value v) :: UptimeKumaResource.cleanObj rest
    rw [clean_value_idem v, cleanObj_idem rest]
end

theorem getPairs_setPairs_self (k : String) (v : Val) :
    ∀ kvs, getPairs k (setPairs k v kvs) = some v
  | [] => by simp [setPairs, getPairs]
  | (k', v') :: rest => by
    by_cases h : k' = k
    · simp [setPairs, getPairs, h]
    · simp [setPairs, getPairs, h, getPairs_setPairs_self k v rest]

theorem getPairs_setPairs_ne (k k' : String) (v : Val) (h : k' ≠ k) :
    ∀ kvs, getPairs k (setPairs k' v kvs) = getPairs k kvs
  | [] => by simp [setPairs, getPairs, h]
  | (k'', v'') :: rest => by
    by_cases h2 : k'' = k'
    · have h3 : k'' ≠ k := h2 ▸ h
      simp only [setPairs, if_pos h2, getPairs, if_neg h3]
    · simp only [setPairs, if_neg h2, getPairs]
      by_cases h3 : k'' = k
      · rw [if_pos h3, if_pos h3]
      · rw [if_neg h3, if_neg h3]
        exact getPairs_setPairs_ne k k' v h rest

theorem noNullObj_setPairs (k : String) (v : Val) (hv : noNull v = true) :
    ∀ kvs, noNullObj kvs = true → noNullObj (setPairs k v kvs) = true
  | [] , _ => by simp [setPairs, noNullObj, hv]
  | (k', v') :: rest, h => by
    have h' := h
    simp only [noNullObj, Bool.and_eq_true] at h'
    by_cases h2 : k' = k
    · simp [setPairs, h2, noNullObj, hv, h'.2]
    · simp [setPairs, h2, noNullObj, h'.1, noNullObj_setPairs k v hv rest h'.2]

theorem pyInsert_perm (le : α → α → Bool) (x : α) :
    ∀ l : List α, (pyInsert le x l).Perm (x :: l)
  | [] => List.Perm.refl _
  | y :: ys => by
    unfold pyInsert
    by_cases h : le x y = true
    · rw [if_pos h]
    · rw [if_neg h]
      exact ((pyInsert_perm le x ys).cons y).trans (List.Perm.swap x y ys)

theorem pySort_perm (le : α → α → Bool) : ∀ l : List α, (pySort le l).Perm l
  | [] => List.Perm.refl _
  | x :: xs => (pyInsert_perm le x (pySort le xs)).trans ((pySort_perm le xs).cons x)

theorem mem_pySort (le : α → α → Bool) (l : List α) (a : α) :
    a ∈ pySort le l ↔ a ∈ l := (pySort_perm le l).mem_iff

theorem pairwise_pyInsert (le : α → α → Bool)
    (htot : ∀ a b, le a b = true ∨ le b a = true)
    (htr : ∀ a b c, le a b = true → le b c = true → le a c = true) (x : α) :
    ∀ l : List α, l.Pairwise (le · · = true) → (pyInsert le x l).Pairwise (le · · = true)
  | [], _ => by simp [pyInsert]
  | y :: ys, hp => by
    obtain ⟨hy, hys⟩ := List.pairwise_cons.mp hp
    unfold pyInsert
    by_cases h : le x y = true
    · rw [if_pos h]
      refine List.pairwise_cons.mpr ⟨?_, hp⟩
      intro z hz
      rcases List.mem_cons.mp hz with rfl | hz'
      · exact h
      · exact htr x y z h (hy z hz')
    · rw [if_neg h]
      have hyx : le y x = true := (htot x y).resolve_left h
      refine List.pairwise_cons.mpr ⟨?_, pairwise_pyInsert le htot htr x ys hys⟩
      intro z hz
      rcases List.mem_cons.mp ((pyInsert_perm le x ys).mem_iff.mp hz) with rfl | hz'
      · exact hyx
      · exact hy z hz'

theorem pairwise_pySort (le : α → α → Bool)
    (htot : ∀ a b, le a b = true ∨ le b a = true)
    (htr : ∀ a b c, le a b = true → le b c = true → le a c = true) :
    ∀ l : List α, (pySort le l).Pairwise (le · · = true)
  | [] => List.Pairwise.nil
  | x :: xs => pairwise_pyInsert le htot htr x (pySort le xs) (pairwise_pySort le htot htr xs)

/-! ### C6 — clean_value behaviour -/

/-- C6: `clean_value` is a total function on JSON-like values that replaces
exactly the `None` and empty-string leaves with the sentinel `"-"`, recursing
through mappings and sequences (preserving shape and keys), and leaves every
other leaf — including `false`, `0` and empty sequences — unchanged. -/
theorem clean_value_replaces_exactly_null_and_empty :
    (UptimeKumaResource.clean_value .null = .s "-") ∧
    (UptimeKumaResource.clean_value (.s "") = .s "-") ∧
    (∀ x : Bool, UptimeKumaResource.clean_value (.b x) = .b x) ∧
    (∀ q : ℚ, UptimeKumaResource.clean_value (.num q) = .num q) ∧
    (∀ str, str ≠ "" → UptimeKumaResource.clean_value (.s str) = .s str) ∧
    (UptimeKumaResource.clean_value (.list []) = .list []) ∧
    (∀ xs, UptimeKumaResource.clean_value (.list xs) =
      .list (xs.map UptimeKumaResource.clean_value)) ∧
    (∀ kvs, UptimeKumaResource.clean_value (.obj kvs) =
      .obj (kvs.map fun kv => (kv.1, UptimeKumaResource.clean_value kv.2))) := by
  refine ⟨rfl, rfl, fun _ => rfl, fun _ => rfl, ?_, rfl, ?_, ?_⟩
  · intro str h
    show (if str = "" then Val.s "-" else .s str) = .s str
    rw [if_neg h]
  · intro xs
    show Val.list (UptimeKumaResource.cleanList xs) = _
    rw [cleanList_eq_map]
  · intro kvs
    show Val.obj (UptimeKumaResource.cleanObj kvs) = _
    rw [cleanObj_eq_map]

/-- Witness for C6 at the concrete non-empty string "x". -/
theorem clean_value_replaces_exactly_null_and_empty_witness :
    ("x" : String) ≠ "" ∧ UptimeKumaResource.clean_value (.s "x") = .s "x" :=
  ⟨by decide, clean_value_replaces_exactly_null_and_empty.2.2.2.2.1 "x" (by decide)⟩

/-! ### C7 — idempotence of the normalizer -/

/-- A key that is already snake_case: lower-case ASCII letters, digits and
underscores. -/
def isSnakeCase (k : String) : Bool :=
  k.data.all fun c => isLowerAscii c || isDigitAscii c || c == '_'

theorem snakeChar_not_upper (c : Char)
    (h : (isLowerAscii c || isDigitAscii c || c == '_') = true) :
    isUpperAscii c = false := by
  have hn : ¬(65 ≤ c.toNat ∧ c.toNat ≤ 90) := by
    simp only [isLowerAscii, isDigitAscii, Bool.or_eq_true, Bool.and_eq_true,
      decide_eq_true_eq, beq_iff_eq] at h
    rcases h with (h | h) | h
    · omega
    · omega
    · subst h
      decide
  cases hb : isUpperAscii c
  · rfl
  · exfalso
    apply hn
    simpa [isUpperAscii] using hb

theorem sub1_of_noUpper :
    (l : List Char) → (∀ c ∈ l, isUpperAscii c = false) → sub1 l = l
  | [], _ => by rw [sub1]
  | [c], _ => by rw [sub1]
  | c :: u :: rest, h => by
    have hu : isUpperAscii u = false := h u (by simp)
    rw [sub1, hu]
    simp only [Bool.false_and, Bool.false_eq_true, if_false]
    refine congrArg (c :: ·) (sub1_of_noUpper (u :: rest) ?_)
    intro c' hc'
    exact h c' (List.mem_cons_of_mem c hc')
termination_by l => l.length

theorem sub2_of_noUpper :
    (l : List Char) → (∀ c ∈ l, isUpperAscii c = false) → sub2 l = l
  | [], _ => by rw [sub2]
  | [c], _ => by rw [sub2]
  | c :: u :: rest, h => by
    have hu : isUpperAscii u = false := h u (by simp)
    rw [sub2, hu]
    simp only [Bool.and_false, Bool.false_eq_true, if_false]
    refine congrArg (c :: ·) (sub2_of_noUpper (u :: rest) ?_)
    intro c' hc'
    exact h c' (List.mem_cons_of_mem c hc')
termination_by l => l.length

theorem toLowerAscii_of_noUpper (c : Char) (h : isUpperAscii c = false) :
    toLowerAscii c = c := by
  simp [toLowerAscii, h]

theorem camel_to_snake_fixed (k : String) (h : isSnakeCase k = true) :
    UptimeKumaResource.camel_to_snake k = k := by
  unfold UptimeKumaResource.camel_to_snake
  by_cases hk : k = ""
  · rw [if_pos hk]
  · rw [if_neg hk]
    have hchars : ∀ c ∈ k.data, isUpperAscii c = false := by
      intro c hc
      exact snakeChar_not_upper c (List.all_eq_true.mp h c hc)
    rw [sub1_of_noUpper k.data hchars, sub2_of_noUpper k.data hchars]
    have hmap : k.data.map toLowerAscii = k.data := by
      conv_rhs => rw [← List.map_id k.data]
      exact List.map_congr_left fun c hc => toLowerAscii_of_noUpper c (hchars c hc)
    rw [hmap]

/-- C7: the field normalizer is idempotent — `clean_value` is idempotent on
every value, and `camel_to_snake` is idempotent on every already-snake_case
key (it fixes such keys outright), so re-running the normalizer on
already-normalized data is a no-op. -/
theorem normalizer_idempotent :
    (∀ v, UptimeKumaResource.clean_value (UptimeKumaResource.clean_value v) =
      UptimeKumaResource.clean_value v) ∧
    (∀ k, isSnakeCase k = true →
      UptimeKumaResource.camel_to_snake (UptimeKumaResource.camel_to_snake k) =
        UptimeKumaResource.camel_to_snake k) := by
  refine ⟨clean_value_idem, fun k h => ?_⟩
  rw [camel_to_snake_fixed k h, camel_to_snake_fixed k h]

/-- Witness for C7 at the snake_case key "mem_total9" and the value
`{"a": null}`. -/
theorem normalizer_idempotent_witness :
    UptimeKumaResource.clean_value
        (UptimeKumaResource.clean_value (.obj [("a", .null)])) =
      UptimeKumaResource.clean_value (.obj [("a", .null)]) ∧
    isSnakeCase "mem_total9" = true ∧
    UptimeKumaResource.camel_to_snake (UptimeKumaResource.camel_to_snake "mem_total9") =
      UptimeKumaResource.camel_to_snake "mem_total9" :=
  ⟨normalizer_idempotent.1 (.obj [("a", .null)]), by decide,
   normalizer_idempotent.2 "mem_total9" (by decide)⟩

/-! ### C9 — certificate transformer -/

/-- Every field of a transformed certificate is sentinel-substituted: no
output leaf is null. -/
theorem noNull_certTransform (c : CertIn) :
    noNull (CertificateInfoResource.transform c) = true := by
  unfold CertificateInfoResource.transform
  by_cases h : c.isEmpty = true
  · rw [if_pos h]; rfl
  · rw [if_neg h]
    simp only [noNull, noNullObj_eq_all, List.all_cons, List.all_nil, Bool.and_eq_true,
      and_true]
    refine ⟨noNull_clean_value _, noNull_clean_value _, noNull_clean_value _,
      noNull_clean_value _, noNull_clean_value _, noNull_clean_value _,
      noNull_clean_value _, noNull_clean_value _, noNull_clean_value _,
      noNull_clean_value _, noNull_clean_value _, noNull_clean_value _,
      noNull_clean_value _, noNull_clean_value _, noNull_clean_value _,
      noNull_clean_value _, noNull_clean_value _, ?_⟩
    split
    · split
      · rfl
      · split
        · rfl
        · split <;> rfl
    · rfl

/-- C9: `CertificateInfoResource.transform` is a pure total function of its
input: it is defined (with no error outcome) on every certificate payload, no
output leaf is ever `None` (all fields are sentinel-substituted), and a
missing nested `certInfo` dictionary behaves exactly like an empty one
(whenever the payload itself stays non-empty, so that the empty-payload
short-circuit does not fire). -/
theorem cert_transform_total_and_sentinel (c : CertIn) :
    noNull (CertificateInfoResource.transform c) = true ∧
    (CertIn.isEmpty { c with certInfo := none } = false →
      CertificateInfoResource.transform { c with certInfo := none } =
        CertificateInfoResource.transform { c with certInfo := some CertDetails.empty }) := by
  constructor
  · exact noNull_certTransform c
  · intro h1
    have h2 : CertIn.isEmpty { c with certInfo := some CertDetails.empty } = false := by
      simp [CertIn.isEmpty]
    unfold CertificateInfoResource.transform
    rw [if_neg (by simp [h1]), if_neg (by simp [h2])]
    rfl

/-- Witness for C9's non-empty hypothesis: a payload holding only `valid`. -/
theorem cert_transform_total_and_sentinel_witness :
    CertIn.isEmpty { ({ valid := some (.b true) } : CertIn) with certInfo := none } = false ∧
    CertificateInfoResource.transform
        { ({ valid := some (.b true) } : CertIn) with certInfo := none } =
      CertificateInfoResource.transform
        { ({ valid := some (.b true) } : CertIn) with certInfo := some CertDetails.empty } :=
  ⟨rfl, (cert_transform_total_and_sentinel { valid := some (.b true) }).2 rfl⟩

/-! ### C5 — zero valid pings degrade to sentinels -/

theorem transform_of_not_isEmpty (d : MonitorBundle) (hne : d.isEmpty = false) :
    MonitorStatisticsResource.transform d = MonitorStatisticsResource.transformBody d := by
  unfold MonitorStatisticsResource.transform
  rw [if_neg (by simp [hne])]

theorem validPings_eq_nil (l : List RawHeartbeat) (hp : ∀ hb ∈ l, hb.ping.join = none) :
    MonitorStatisticsResource.validPings l = [] := by
  unfold MonitorStatisticsResource.validPings
  exact List.filterMap_eq_nil_iff.mpr hp

/-- C5: for every non-empty monitor bundle whose heartbeats and important
heartbeats together contain no non-missing ping value (each `ping` key is
absent or null), the transform returns the sentinel for
`avg_ping_calculated`, `ping_quality` and `ping_stability` — it is a total
function, so the empty-sample mean/stdev cases degrade to sentinels rather
than exceptions. -/
theorem zero_valid_pings_all_sentinel (d : MonitorBundle) (hne : d.isEmpty = false)
    (hp : ∀ hb ∈ MonitorStatisticsResource.heartbeatsOf d ++
      MonitorStatisticsResource.importantOf d, hb.ping.join = none) :
    pyGetD (MonitorStatisticsResource.transform d) "avg_ping_calculated" .null = .s "-" ∧
    pyGetD (MonitorStatisticsResource.transform d) "ping_quality" .null = .s "-" ∧
    pyGetD (MonitorStatisticsResource.transform d) "ping_stability" .null = .s "-" := by
  have hv : MonitorStatisticsResource.validPings
      (MonitorStatisticsResource.heartbeatsOf d ++ MonitorStatisticsResource.importantOf d) =
      [] := validPings_eq_nil _ hp
  have havg : MonitorStatisticsResource.avgPingClean d = .s "-" := by
    unfold MonitorStatisticsResource.avgPingClean MonitorStatisticsResource.avg_ping_calculated
    rw [hv]
    rfl
  rw [transform_of_not_isEmpty d hne]
  refine ⟨?_, ?_, ?_⟩
  · show MonitorStatisticsResource.avgPingClean d = .s "-"
    exact havg
  · show pingQuality (MonitorStatisticsResource.avgPingClean d) = .s "-"
    rw [havg]
    rfl
  · show MonitorStatisticsResource.ping_stability d = .s "-"
    unfold MonitorStatisticsResource.ping_stability
    rw [hv]
    rfl

/-- Witness for C5: one heartbeat with a null ping, one with no ping key. -/
theorem zero_valid_pings_all_sentinel_witness :
    MonitorBundle.isEmpty
        { heartbeats := some [{ ping := some none }, {}],
          important_heartbeats := some [{ status := some (.num 0) }] } = false ∧
    pyGetD (MonitorStatisticsResource.transform
        { heartbeats := some [{ ping := some none }, {}],
          important_heartbeats := some [{ status := some (.num 0) }] })
      "avg_ping_calculated" .null = .s "-" ∧
    pyGetD (MonitorStatisticsResource.transform
        { heartbeats := some [{ ping := some none }, {}],
          important_heartbeats := some [{ status := some (.num 0) }] })
      "ping_quality" .null = .s "-" ∧
    pyGetD (MonitorStatisticsResource.transform
        { heartbeats := some [{ ping := some none }, {}],
          important_heartbeats := some [{ status := some (.num 0) }] })
      "ping_stability" .null = .s "-" := by
  have h := zero_valid_pings_all_sentinel
    { heartbeats := some [{ ping := some none }, {}],
      important_heartbeats := some [{ status := some (.num 0) }] }
    (by rfl) (by decide)
  exact ⟨by rfl, h.1, h.2.1, h.2.2⟩

/-! ### C8 — heartbeat monitor_id resolution (corrected) -/

/-- C8 counterexample: a heartbeat whose `monitor_id` key is present but null
while `monitorID` is 5 yields the sentinel, not 5 — so a present-but-missing
(`None`) `monitor_id` value does shadow a present `monitorID`, contrary to
first-non-missing-wins. -/
theorem heartbeat_monitor_id_counterexample :
    pyGetD (HeartbeatResource.transform
        { monitor_id := some .null, monitorID := some (.num 5) }) "monitor_id" .null = .s "-" ∧
    Val.s "-" ≠ Val.num 5 :=
  ⟨by with_unfolding_all rfl, fun h => Val.noConfusion h⟩

/-- C8 (amended): the `monitor_id` output field is decided by key presence,
not by non-missingness — it is the cleaned `monitor_id` value whenever that
key is present (so a null value becomes the sentinel even when `monitorID` is
present), otherwise the cleaned `monitorID` value, and the sentinel when both
keys are absent. -/
theorem heartbeat_monitor_id_key_presence (hb : RawHeartbeat) (hne : hb.isEmpty = false) :
    (∀ v, hb.monitor_id = some v →
      pyGetD (HeartbeatResource.transform hb) "monitor_id" .null =
        UptimeKumaResource.clean_value v) ∧
    (hb.monitor_id = none → ∀ w, hb.monitorID = some w →
      pyGetD (HeartbeatResource.transform hb) "monitor_id" .null =
        UptimeKumaResource.clean_value w) ∧
    (hb.monitor_id = none → hb.monitorID = none →
      pyGetD (HeartbeatResource.transform hb) "monitor_id" .null = .s "-") := by
  have hbase : pyGetD (HeartbeatResource.transform hb) "monitor_id" .null =
      UptimeKumaResource.clean_value (hb.monitor_id.getD (hb.monitorID.getD .null)) := by
    unfold HeartbeatResource.transform
    rw [if_neg (by simp [hne])]
    rfl
  refine ⟨?_, ?_, ?_⟩
  · intro v hv
    rw [hbase, hv]
    rfl
  · intro h0 w hw
    rw [hbase, h0, hw]
    rfl
  · intro h0 h1
    rw [hbase, h0, h1]
    rfl

/-- Witness for C8's amended claim: key absent, `monitorID` = 7 wins. -/
theorem heartbeat_monitor_id_key_presence_witness :
    RawHeartbeat.isEmpty { monitorID := some (.num 7) } = false ∧
    pyGetD (HeartbeatResource.transform { monitorID := some (.num 7) })
      "monitor_id" .null = .num 7 :=
  ⟨rfl, (heartbeat_monitor_id_key_presence { monitorID := some (.num 7) } rfl).2.1
    rfl (.num 7) rfl⟩

/-! ### C3 — health score -/

/-- C3: for a non-empty bundle, `health_score` equals
`round(0.7 * uptime_24h_percent + 0.3 * max(0, 100 - avg_ping/10), 1)`
whenever the 24-hour percentage and the cleaned `avg_ping_calculated` are both
(non-sentinel) numbers, and is the sentinel whenever either of them is the
sentinel; in particular a 100.0 percent uptime with average ping 50 yields
98.5. -/
theorem health_score_formula (d : MonitorBundle) (hne : d.isEmpty = false) :
    (∀ pu p : ℚ,
      pyGetD (MonitorStatisticsResource.uptimeDataOf d) "24h_percent" (.s "-") = .num pu →
      MonitorStatisticsResource.avgPingClean d = .num p →
      pyGetD (MonitorStatisticsResource.transform d) "health_score" .null =
        .num (pyRound 1 ((7/10) * pu + (3/10) * max 0 (100 - p / 10)))) ∧
    ((pyGetD (MonitorStatisticsResource.uptimeDataOf d) "24h_percent" (.s "-") = .s "-" ∨
      MonitorStatisticsResource.avgPingClean d = .s "-") →
      pyGetD (MonitorStatisticsResource.transform d) "health_score" .null = .s "-") ∧
    pyGetD (MonitorStatisticsResource.transform
        { uptime := some [("24", some 1)], heartbeats := some [{ ping := some (some 50) }] })
      "health_score" .null = .num (985/10) := by
  have hbase : pyGetD (MonitorStatisticsResource.transform d) "health_score" .null =
      MonitorStatisticsResource.health_score d := by
    rw [transform_of_not_isEmpty d hne]
    rfl
  refine ⟨?_, ?_, ?_⟩
  · intro pu p h24 hap
    rw [hbase]
    unfold MonitorStatisticsResource.health_score
    rw [h24, hap]
    show Val.num (pyRound 1 (pu * (7/10) + max 0 (100 - p / 10) * (3/10))) = _
    rw [mul_comm pu ((7 : ℚ)/10), mul_comm (max 0 (100 - p / 10)) ((3 : ℚ)/10)]
  · intro hcase
    rw [hbase]
    unfold MonitorStatisticsResource.health_score
    rcases hcase with h24 | hap
    · rw [h24]
      try rfl
    · rw [hap]
      try cases h24v : pyGetD (MonitorStatisticsResource.uptimeDataOf d) "24h_percent" (.s "-") <;> rfl
  · with_unfolding_all rfl

/-- Witness for C3 at a concrete bundle: 24-hour ratio 0.999 (99.9 percent)
and a single ping of 200 gives round(0.7*99.9 + 0.3*80, 1) = 93.9. -/
theorem health_score_formula_witness :
    MonitorBundle.isEmpty
        { uptime := some [("24", some (999/1000))],
          heartbeats := some [{ ping := some (some 200) }] } = false ∧
    pyGetD (MonitorStatisticsResource.uptimeDataOf
        { uptime := some [("24", some (999/1000))],
          heartbeats := some [{ ping := some (some 200) }] }) "24h_percent" (.s "-") =
      .num (999/10) ∧
    pyGetD (MonitorStatisticsResource.transform
        { uptime := some [("24", some (999/1000))],
          heartbeats := some [{ ping := some (some 200) }] })
      "health_score" .null = .num (pyRound 1 ((7/10) * (999/10) + (3/10) * max 0 (100 - 200 / 10))) := by
  refine ⟨rfl, by with_unfolding_all rfl, ?_⟩
  exact (health_score_formula
    { uptime := some [("24", some (999/1000))],
      heartbeats := some [{ ping := some (some 200) }] } rfl).1 (999/10) 200
    (by with_unfolding_all rfl) (by with_unfolding_all rfl)

/-! ### C1 — no-null-leaves of the monitor statistics output -/

theorem noNull_pySet (m : Val) (k : String) (v : Val) (hm : noNull m = true)
    (hv : noNull v = true) : noNull (pySet m k v) = true := by
  cases m <;> (try exact hm)
  show noNullObj (setPairs k v _) = true
  exact noNullObj_setPairs k v hv _ hm

theorem noNull_foldl {γ : Type} (g : Val → γ → Val)
    (hg : ∀ acc x, noNull acc = true → noNull (g acc x) = true) :
    ∀ (l : List γ) (acc : Val), noNull acc = true → noNull (l.foldl g acc) = true
  | [], _, h => h
  | x :: xs, acc, h => noNull_foldl g hg xs (g acc x) (hg acc x h)

theorem noNull_pingQuality (v : Val) : noNull (pingQuality v) = true := by
  unfold pingQuality
  split
  · split
    · rfl
    · split
      · rfl
      · split <;> rfl
  · rfl

theorem noNull_hbTransform (hb : RawHeartbeat) :
    noNull (HeartbeatResource.transform hb) = true := by
  unfold HeartbeatResource.transform
  by_cases h : hb.isEmpty = true
  · rw [if_pos h]; rfl
  · rw [if_neg h]
    dsimp only
    simp only [noNull, noNullObj_eq_all, List.all_cons, List.all_nil, Bool.and_eq_true,
      and_true]
    exact ⟨noNull_clean_value _, noNull_clean_value _, noNull_clean_value _,
      noNull_clean_value _, noNull_clean_value _, noNull_clean_value _,
      noNull_clean_value _, trivial, noNull_clean_value _, noNull_pingQuality _⟩

theorem noNull_uptimeTransform (u : List (String × Option ℚ)) :
    noNull (UptimeResource.transform u) = true := by
  unfold UptimeResource.transform
  by_cases h : u.isEmpty = true
  · rw [if_pos h]; rfl
  · rw [if_neg (by simp [h])]
    dsimp only
    apply noNull_foldl
    · intro acc x hacc
      apply noNull_pySet _ _ _ hacc
      split
      · split
        · rfl
        · split
          · rfl
          · split <;> rfl
      · rfl
    · apply noNull_foldl
      · intro acc x hacc
        apply noNull_pySet
        · apply noNull_pySet _ _ _ hacc
          split <;> rfl
        · split <;> rfl
      · rfl

theorem noNullList_map {γ : Type} (f : γ → Val) (l : List γ)
    (h : ∀ x ∈ l, noNull (f x) = true) : noNullList (l.map f) = true := by
  rw [noNullList_eq_all, List.all_eq_true]
  intro v hv
  rcases List.mem_map.mp hv with ⟨x, hx, rfl⟩
  exact h x hx

/-- No leaf of a heartbeat's `msg` value (when the key is present) is null. -/
def msgSafe (hb : RawHeartbeat) : Bool :=
  match hb.msg with
  | some v => noNull v
  | none => true

theorem mem_sortCombined (l : List RawHeartbeat) (hb : RawHeartbeat)
    (h : hb ∈ MonitorStatisticsResource.sortCombined l) : hb ∈ l := by
  unfold MonitorStatisticsResource.sortCombined at h
  split at h
  · exact h
  · split at h
    · exact (mem_pySort _ _ _).mp h
    · exact (mem_pySort _ _ _).mp h

theorem noNull_logEntry (nm : Val) (hb : RawHeartbeat) (hnm : noNull nm = true)
    (hmsg : msgSafe hb = true) :
    noNull (MonitorStatisticsResource.logEntryOf nm hb) = true := by
  unfold MonitorStatisticsResource.logEntryOf
  simp only [noNull, noNullObj_eq_all, List.all_cons, List.all_nil, Bool.and_eq_true,
    and_true]
  refine ⟨hnm, trivial, ?_, ?_⟩
  · split <;> rfl
  · unfold msgSafe at hmsg
    revert hmsg
    rcases hb.msg with _ | v
    · intro _
      rfl
    · intro hmsg
      exact hmsg

theorem noNull_avgPingClean (d : MonitorBundle) :
    noNull (MonitorStatisticsResource.avgPingClean d) = true := by
  unfold MonitorStatisticsResource.avgPingClean
  split <;> rfl

theorem noNull_ping_stability (d : MonitorBundle) :
    noNull (MonitorStatisticsResource.ping_stability d) = true := by
  unfold MonitorStatisticsResource.ping_stability
  dsimp only
  split <;> rfl

theorem noNull_health_score (d : MonitorBundle) :
    noNull (MonitorStatisticsResource.health_score d) = true := by
  unfold MonitorStatisticsResource.health_score
  split <;> rfl

/-- C1 counterexample: a bundle whose single heartbeat carries an explicit
null `msg` value produces a log entry whose `message` leaf is null, so not
every output leaf is a JSON-safe value or the sentinel. -/
theorem monitor_statistics_no_null_counterexample :
    noNull (MonitorStatisticsResource.transform
      { heartbeats := some [{ msg := some .null }] }) = false := by
  with_unfolding_all rfl

/-- C1 (amended): every leaf of the MonitorStatistics output — including the
nested log entries, recent heartbeats, uptime and certificate fields — is a
JSON-safe scalar/sequence/mapping or the sentinel `"-"`, never null, for
every bundle in which each heartbeat's `msg` value (when the key is present)
contains no null and the monitor's `name` key, when present, is not null
(the log entries copy those two raw values verbatim, so explicit nulls there
leak through). -/
theorem monitor_statistics_no_null_leaves (d : MonitorBundle)
    (hmsg : ∀ hb ∈ MonitorStatisticsResource.heartbeatsOf d ++
      MonitorStatisticsResource.importantOf d, msgSafe hb = true)
    (hname : noNull (MonitorStatisticsResource.monNameOf d) = true) :
    noNull (MonitorStatisticsResource.transform d) = true := by
  unfold MonitorStatisticsResource.transform
  by_cases h : d.isEmpty = true
  · rw [if_pos h]; rfl
  · rw [if_neg h]
    unfold MonitorStatisticsResource.transformBody
    dsimp only
    simp only [noNull, noNullObj_eq_all, List.all_cons, List.all_nil, Bool.and_eq_true,
      and_true]
    refine ⟨noNull_clean_value _, noNull_clean_value _, noNull_clean_value _,
      noNull_clean_value _, noNull_clean_value _, noNull_clean_value _,
      trivial, trivial, trivial, noNull_clean_value _, noNull_clean_value _,
      noNull_clean_value _,
      noNull_avgPingClean d, noNull_uptimeTransform _, noNull_certTransform _,
      noNullList_map _ _ (fun hb _ => noNull_hbTransform hb), trivial,
      noNullList_map _ _ (fun hb _ => noNull_hbTransform hb), trivial,
      noNull_clean_value _, noNull_clean_value _, noNull_clean_value _,
      noNull_clean_value _, noNull_clean_value _, noNull_clean_value _,
      noNull_clean_value _, trivial, noNull_clean_value _, noNull_ping_stability d,
      ?_, noNull_pingQuality _, noNull_health_score d⟩
    refine noNullList_map _ _ ?_
    intro hb hmem
    exact noNull_logEntry _ hb hname (hmsg hb (mem_sortCombined _ hb hmem))

/-- Witness for C1's amended hypotheses at a concrete bundle with a named
monitor and one heartbeat carrying a string message. -/
theorem monitor_statistics_no_null_leaves_witness :
    (∀ hb ∈ MonitorStatisticsResource.heartbeatsOf
        { monitor := some { name := some (some "web") },
          heartbeats := some [{ msg := some (.s "OK"), status := some (.num 1) }] } ++
      MonitorStatisticsResource.importantOf
        { monitor := some { name := some (some "web") },
          heartbeats := some [{ msg := some (.s "OK"), status := some (.num 1) }] },
      msgSafe hb = true) ∧
    noNull (MonitorStatisticsResource.transform
      { monitor := some { name := some (some "web") },
        heartbeats := some [{ msg := some (.s "OK"), status := some (.num 1) }] }) = true := by
  refine ⟨by decide, ?_⟩
  exact monitor_statistics_no_null_leaves
    { monitor := some { name := some (some "web") },
      heartbeats := some [{ msg := some (.s "OK"), status := some (.num 1) }] }
    (by decide) (by decide)

/-! ### C2 — log-entry sorting with all-or-nothing fallback -/

theorem descByParsed_total (a b : RawHeartbeat) :
    MonitorStatisticsResource.descByParsed a b = true ∨
    MonitorStatisticsResource.descByParsed b a = true := by
  unfold MonitorStatisticsResource.descByParsed
  rcases Int.le_total (MonitorStatisticsResource.sortKey b)
    (MonitorStatisticsResource.sortKey a) with h | h
  · exact Or.inl (decide_eq_true h)
  · exact Or.inr (decide_eq_true h)

theorem descByParsed_trans (a b c : RawHeartbeat)
    (h1 : MonitorStatisticsResource.descByParsed a b = true)
    (h2 : MonitorStatisticsResource.descByParsed b c = true) :
    MonitorStatisticsResource.descByParsed a c = true := by
  unfold MonitorStatisticsResource.descByParsed at *
  exact decide_eq_true (Int.le_trans (of_decide_eq_true h2) (of_decide_eq_true h1))

theorem descByRaw_total (a b : RawHeartbeat) :
    MonitorStatisticsResource.descByRaw a b = true ∨
    MonitorStatisticsResource.descByRaw b a = true := by
  unfold MonitorStatisticsResource.descByRaw
  rcases le_total (MonitorStatisticsResource.rawTime b)
    (MonitorStatisticsResource.rawTime a) with h | h
  · exact Or.inl (decide_eq_true h)
  · exact Or.inr (decide_eq_true h)

theorem descByRaw_trans (a b c : RawHeartbeat)
    (h1 : MonitorStatisticsResource.descByRaw a b = true)
    (h2 : MonitorStatisticsResource.descByRaw b c = true) :
    MonitorStatisticsResource.descByRaw a c = true := by
  unfold MonitorStatisticsResource.descByRaw at *
  exact decide_eq_true (le_trans (of_decide_eq_true h2) (of_decide_eq_true h1))

/-- C2: the merged heartbeat list is sorted by parsed ISO timestamp
descending (comparing instants: naive keys directly, aware keys by their UTC
instant) whenever the keyed sort raises nothing — every time parses
(absent/empty/sentinel times standing for `datetime.min`) and all keys are
comparable, all naive or all aware; the fallback is all-or-nothing — as soon
as any single entry's key raises (a malformed or calendar-invalid timestamp,
or a naive/aware mix whose comparison raises), the whole merged list is
instead sorted by descending comparison of the raw time strings — and the
emitted log entries follow the sorted order, one per merged heartbeat. -/
theorem log_entries_sorted (hbs imps : List RawHeartbeat) (d : MonitorBundle)
    (hne : d.isEmpty = false) (hh : d.heartbeats = some hbs)
    (hi : d.important_heartbeats = some imps) :
    (MonitorStatisticsResource.sortOk (hbs ++ imps) = true →
      (MonitorStatisticsResource.sortCombined (hbs ++ imps)).Pairwise
        (fun a b => MonitorStatisticsResource.sortKey b ≤
          MonitorStatisticsResource.sortKey a)) ∧
    (MonitorStatisticsResource.sortOk (hbs ++ imps) = false →
      MonitorStatisticsResource.sortCombined (hbs ++ imps) =
        pySort MonitorStatisticsResource.descByRaw (hbs ++ imps) ∧
      (MonitorStatisticsResource.sortCombined (hbs ++ imps)).Pairwise
        (fun a b => MonitorStatisticsResource.rawTime b ≤
          MonitorStatisticsResource.rawTime a)) ∧
    pyGetD (MonitorStatisticsResource.transform d) "logs" .null =
      .list ((MonitorStatisticsResource.sortCombined (hbs ++ imps)).map
        (MonitorStatisticsResource.logEntryOf (MonitorStatisticsResource.monNameOf d))) := by
  refine ⟨?_, ?_, ?_⟩
  · intro hall
    unfold MonitorStatisticsResource.sortCombined
    by_cases hemp : (hbs ++ imps).isEmpty = true
    · rw [if_pos hemp]
      rw [List.isEmpty_iff.mp hemp]
      exact List.Pairwise.nil
    · rw [if_neg hemp, if_pos hall]
      exact (pairwise_pySort MonitorStatisticsResource.descByParsed descByParsed_total
        descByParsed_trans (hbs ++ imps)).imp fun h => of_decide_eq_true h
  · intro hfail
    have hemp : (hbs ++ imps).isEmpty = false := by
      cases hl : hbs ++ imps with
      | nil => rw [hl] at hfail; exact absurd hfail (by decide)
      | cons x xs => rfl
    unfold MonitorStatisticsResource.sortCombined
    rw [if_neg (by simp [hemp]), if_neg (by simp [hfail])]
    refine ⟨rfl, ?_⟩
    exact (pairwise_pySort MonitorStatisticsResource.descByRaw descByRaw_total
      descByRaw_trans (hbs ++ imps)).imp fun h => of_decide_eq_true h
  · rw [transform_of_not_isEmpty d hne]
    show Val.list (MonitorStatisticsResource.logsOf d) = _
    unfold MonitorStatisticsResource.logsOf MonitorStatisticsResource.heartbeatsOf
      MonitorStatisticsResource.importantOf
    rw [hh, hi]
    rfl

/-- Witness for C2 at concrete fixtures: two parseable timestamps sort
newest-first; one corrupt timestamp switches the whole merged list to
raw-string descending order; a calendar-invalid date (2024-02-30) also
triggers the fallback; and an all-timezone-aware list sorts by instant
without falling back. -/
theorem log_entries_sorted_witness :
    (MonitorStatisticsResource.sortCombined
      [{ time := some "2024-01-01 00:00:00" }, { time := some "2024-01-02 00:00:00" }]).Pairwise
        (fun a b => MonitorStatisticsResource.sortKey b ≤
          MonitorStatisticsResource.sortKey a) ∧
    MonitorStatisticsResource.sortCombined
        [{ time := some "2024-01-01 00:00:00" }, { time := some "oops" }] =
      pySort MonitorStatisticsResource.descByRaw
        [{ time := some "2024-01-01 00:00:00" }, { time := some "oops" }] ∧
    pyGetD (MonitorStatisticsResource.transform
        { heartbeats := some [{ time := some "2024-01-01 00:00:00" }],
          important_heartbeats := some [{ time := some "2024-01-02 00:00:00" }] })
      "logs" .null =
      .list ((MonitorStatisticsResource.sortCombined
        ([{ time := some "2024-01-01 00:00:00" }] ++ [{ time := some "2024-01-02 00:00:00" }])).map
        (MonitorStatisticsResource.logEntryOf (MonitorStatisticsResource.monNameOf
          { heartbeats := some [{ time := some "2024-01-01 00:00:00" }],
            important_heartbeats := some [{ time := some "2024-01-02 00:00:00" }] }))) ∧
    MonitorStatisticsResource.sortCombined
        [{ time := some "2024-03-01 00:00:00" }, { time := some "2024-02-30 00:00:00" }] =
      pySort MonitorStatisticsResource.descByRaw
        [{ time := some "2024-03-01 00:00:00" }, { time := some "2024-02-30 00:00:00" }] ∧
    (MonitorStatisticsResource.sortCombined
      [{ time := some "2024-01-01 00:00:00+01:00" },
       { time := some "2024-01-01 00:30:00+00:00" }]).Pairwise
        (fun a b => MonitorStatisticsResource.sortKey b ≤
          MonitorStatisticsResource.sortKey a) := by
  refine ⟨?_, ?_, ?_, ?_, ?_⟩
  · exact (log_entries_sorted [{ time := some "2024-01-01 00:00:00" }]
      [{ time := some "2024-01-02 00:00:00" }]
      { heartbeats := some [{ time := some "2024-01-01 00:00:00" }],
        important_heartbeats := some [{ time := some "2024-01-02 00:00:00" }] }
      rfl rfl rfl).1 (by with_unfolding_all rfl)
  · exact ((log_entries_sorted [{ time := some "2024-01-01 00:00:00" }] [{ time := some "oops" }]
      { heartbeats := some [{ time := some "2024-01-01 00:00:00" }],
        important_heartbeats := some [{ time := some "oops" }] }
      rfl rfl rfl).2.1 (by with_unfolding_all rfl)).1
  · exact (log_entries_sorted [{ time := some "2024-01-01 00:00:00" }]
      [{ time := some "2024-01-02 00:00:00" }]
      { heartbeats := some [{ time := some "2024-01-01 00:00:00" }],
        important_heartbeats := some [{ time := some "2024-01-02 00:00:00" }] }
      rfl rfl rfl).2.2
  · exact ((log_entries_sorted [{ time := some "2024-03-01 00:00:00" }]
      [{ time := some "2024-02-30 00:00:00" }]
      { heartbeats := some [{ time := some "2024-03-01 00:00:00" }],
        important_heartbeats := some [{ time := some "2024-02-30 00:00:00" }] }
      rfl rfl rfl).2.1 (by with_unfolding_all rfl)).1
  · exact (log_entries_sorted [{ time := some "2024-01-01 00:00:00+01:00" }]
      [{ time := some "2024-01-01 00:30:00+00:00" }]
      { heartbeats := some [{ time := some "2024-01-01 00:00:00+01:00" }],
        important_heartbeats := some [{ time := some "2024-01-01 00:30:00+00:00" }] }
      rfl rfl rfl).1 (by with_unfolding_all rfl)

/-! ### C4 / C10 — fleet aggregation lemmas -/

theorem transform_is_obj (d : MonitorBundle) :
    ∃ kvs, MonitorStatisticsResource.transform d = .obj kvs := by
  unfold MonitorStatisticsResource.transform
  by_cases h : d.isEmpty = true
  · rw [if_pos h]
    exact ⟨[], rfl⟩
  · rw [if_neg h]
    exact ⟨_, rfl⟩

namespace AllMonitorsStatisticsResource

/-- Every bundle of the fleet input is a non-empty dictionary. -/
def bundlesNonEmpty (data : FleetIn) : Bool :=
  (data.monitors.getD []).all fun im => !im.2.isEmpty

theorem pyGet_monitorStats (im : ℤ × MonitorBundle) (k : String) (hk : k ≠ "id") :
    pyGet (monitorStats im) k = pyGet (MonitorStatisticsResource.transform im.2) k := by
  obtain ⟨kvs, hkvs⟩ := transform_is_obj im.2
  unfold monitorStats
  rw [hkvs]
  show getPairs k (setPairs "id" (.num (im.1 : ℚ)) kvs) = getPairs k kvs
  exact getPairs_setPairs_ne k "id" _ (Ne.symm hk) kvs

theorem status_of_monitorStats (im : ℤ × MonitorBundle) (hne : im.2.isEmpty = false) :
    pyGet (monitorStats im) "status" =
      some (.num (if (MonitorStatisticsResource.monitorOf im.2).active then 1 else 0)) := by
  rw [pyGet_monitorStats im "status" (by decide), transform_of_not_isEmpty _ hne]
  rfl

theorem maintenance_of_monitorStats (im : ℤ × MonitorBundle) (hne : im.2.isEmpty = false) :
    pyGet (monitorStats im) "maintenance" =
      some (.b (MonitorStatisticsResource.monitorOf im.2).maintenance) := by
  rw [pyGet_monitorStats im "maintenance" (by decide), transform_of_not_isEmpty _ hne]
  rfl

theorem avg_of_monitorStats (im : ℤ × MonitorBundle) (hne : im.2.isEmpty = false) :
    pyGet (monitorStats im) "avg_ping_calculated" =
      some (MonitorStatisticsResource.avgPingClean im.2) := by
  rw [pyGet_monitorStats im "avg_ping_calculated" (by decide), transform_of_not_isEmpty _ hne]
  rfl

theorem upPred_of_monitorStats (im : ℤ × MonitorBundle) (hne : im.2.isEmpty = false) :
    upPred (monitorStats im) =
      ((MonitorStatisticsResource.monitorOf im.2).active &&
        !(MonitorStatisticsResource.monitorOf im.2).maintenance) := by
  unfold upPred
  rw [status_of_monitorStats im hne, maintenance_of_monitorStats im hne]
  cases (MonitorStatisticsResource.monitorOf im.2).active <;>
    cases (MonitorStatisticsResource.monitorOf im.2).maintenance <;>
    with_unfolding_all rfl

theorem downPred_of_monitorStats (im : ℤ × MonitorBundle) (hne : im.2.isEmpty = false) :
    downPred (monitorStats im) =
      (!(MonitorStatisticsResource.monitorOf im.2).active &&
        !(MonitorStatisticsResource.monitorOf im.2).maintenance) := by
  unfold downPred
  rw [status_of_monitorStats im hne, maintenance_of_monitorStats im hne]
  cases (MonitorStatisticsResource.monitorOf im.2).active <;>
    cases (MonitorStatisticsResource.monitorOf im.2).maintenance <;>
    with_unfolding_all rfl

theorem maintPred_of_monitorStats (im : ℤ × MonitorBundle) (hne : im.2.isEmpty = false) :
    maintPred (monitorStats im) = (MonitorStatisticsResource.monitorOf im.2).maintenance := by
  unfold maintPred
  rw [maintenance_of_monitorStats im hne]
  rfl

/-- How many of the three fleet groups a record belongs to. -/
def groupCount (m : Val) : ℕ :=
  (if upPred m then 1 else 0) + (if downPred m then 1 else 0) + (if maintPred m then 1 else 0)

theorem groupCount_of_monitorStats (im : ℤ × MonitorBundle) (hne : im.2.isEmpty = false) :
    groupCount (monitorStats im) = 1 := by
  unfold groupCount
  rw [upPred_of_monitorStats im hne, downPred_of_monitorStats im hne,
    maintPred_of_monitorStats im hne]
  cases (MonitorStatisticsResource.monitorOf im.2).active <;>
    cases (MonitorStatisticsResource.monitorOf im.2).maintenance <;> rfl

theorem mem_monitorsOf (data : FleetIn) (m : Val) (hm : m ∈ monitorsOf data) :
    ∃ im, im ∈ data.monitors.getD [] ∧ m = monitorStats im := by
  unfold monitorsOf at hm
  rcases List.mem_map.mp ((mem_pySort _ _ _).mp hm) with ⟨im, him, rfl⟩
  exact ⟨im, him, rfl⟩

theorem bundle_nonEmpty_of_mem (data : FleetIn) (hb : bundlesNonEmpty data = true)
    (im : ℤ × MonitorBundle) (him : im ∈ data.monitors.getD []) :
    im.2.isEmpty = false := by
  have := List.all_eq_true.mp hb im him
  simpa using this

theorem countP_monitorsOf (data : FleetIn) (p : Val → Bool) :
    (monitorsOf data).countP p =
      (data.monitors.getD []).countP fun im => p (monitorStats im) := by
  unfold monitorsOf
  rw [(pySort_perm _ _).countP_eq, List.countP_map]
  rfl

theorem count_partition (l : List Val) (h : ∀ m ∈ l, groupCount m = 1) :
    l.countP upPred + l.countP downPred + l.countP maintPred = l.length := by
  induction l with
  | nil => rfl
  | cons x xs ih =>
    have hx := h x (List.mem_cons_self x xs)
    have ih' := ih fun m hm => h m (List.mem_cons_of_mem x hm)
    unfold groupCount at hx
    rw [List.countP_cons, List.countP_cons, List.countP_cons, List.length_cons]
    by_cases h1 : upPred x = true <;> by_cases h2 : downPred x = true <;>
      by_cases h3 : maintPred x = true <;>
      simp only [h1, h2, h3, if_true, if_false, Bool.false_eq_true] at hx ⊢ <;>
      omega

theorem sumNums_isSome (l : List Val) (h : ∀ v ∈ l, ∃ q, v = Val.num q) :
    (sumNums l).isSome = true := by
  induction l with
  | nil => rfl
  | cons x xs ih =>
    obtain ⟨q, rfl⟩ := h x (List.mem_cons_self x xs)
    have ihx := ih fun v hv => h v (List.mem_cons_of_mem _ hv)
    have hstep : sumNums (Val.num q :: xs) =
        (match Val.num q, sumNums xs with
         | .num q', some acc => some (q' + acc)
         | _, _ => none) := rfl
    cases hs : sumNums xs with
    | none => rw [hs] at ihx; simp at ihx
    | some acc =>
      rw [hstep, hs]
      rfl

theorem rtSel_all_num (data : FleetIn) (hb : bundlesNonEmpty data = true) :
    ∀ v ∈ rtSel data, ∃ q, v = Val.num q := by
  intro v hv
  unfold rtSel at hv
  rcases List.mem_map.mp hv with ⟨m, hmf, rfl⟩
  obtain ⟨hmm, hpred⟩ := List.mem_filter.mp hmf
  rcases mem_monitorsOf data m hmm with ⟨im, him, rfl⟩
  have hne : im.2.isEmpty = false := bundle_nonEmpty_of_mem data hb im him
  rw [avg_of_monitorStats im hne] at hpred ⊢
  revert hpred
  unfold MonitorStatisticsResource.avgPingClean
  cases MonitorStatisticsResource.avg_ping_calculated im.2 with
  | none =>
    intro hpred
    simp only [Bool.and_eq_true] at hpred
    exact absurd hpred.1 (by with_unfolding_all decide)
  | some q =>
    intro _
    exact ⟨q, rfl⟩

theorem transform_ok_of_nonEmpty (now : String) (data : FleetIn)
    (hne : data.isEmpty = false) (hb : bundlesNonEmpty data = true) :
    transform now data = .ok (transformBody now data) := by
  unfold transform
  rw [if_neg (by simp [hne])]
  have hsome : (sumNums (rtSel data)).isNone = false := by
    have h1 := sumNums_isSome (rtSel data) (rtSel_all_num data hb)
    cases h : sumNums (rtSel data) with
    | none => rw [h] at h1; simp at h1
    | some _ => rfl
  rw [hsome]
  simp

/-- A concrete fleet: three up monitors, one down, two in maintenance. -/
def fleetSample : FleetIn :=
  { monitors := some [
      (1, { monitor := some { active := true } }),
      (2, { monitor := some { active := true } }),
      (3, { monitor := some { active := true } }),
      (4, { monitor := some {} }),
      (5, { monitor := some { active := true, maintenance := true } }),
      (6, { monitor := some { maintenance := true } })] }

/-- A concrete fleet with no up and no down monitors (one in maintenance). -/
def fleetSampleZero : FleetIn :=
  { monitors := some [(1, { monitor := some { maintenance := true } })] }

/-- C4: in the fleet output, the up and down groups exclude maintenance
monitors (they count exactly the non-maintenance bundles whose raw active
flag is truthy resp. falsy), `up_percentage` is
`round(|up| / (|up| + |down|) * 100, 2)` when `|up| + |down| > 0` and the
number `0` — not the sentinel — otherwise; concretely, 3 up / 1 down / 2
maintenance gives 75 and a fleet with no up or down monitors gives 0. -/
theorem fleet_up_percentage (now : String) (data : FleetIn)
    (hne : data.isEmpty = false) (hb : bundlesNonEmpty data = true) :
    transform now data = .ok (transformBody now data) ∧
    ((monitorsOf data).filter upPred).length =
      ((data.monitors.getD []).filter fun im =>
        (MonitorStatisticsResource.monitorOf im.2).active &&
          !(MonitorStatisticsResource.monitorOf im.2).maintenance).length ∧
    ((monitorsOf data).filter downPred).length =
      ((data.monitors.getD []).filter fun im =>
        !(MonitorStatisticsResource.monitorOf im.2).active &&
          !(MonitorStatisticsResource.monitorOf im.2).maintenance).length ∧
    pyGetD (transformBody now data) "up_percentage" .null =
      (if 0 < ((monitorsOf data).filter upPred).length +
          ((monitorsOf data).filter downPred).length then
        Val.num (pyRound 2 ((((monitorsOf data).filter upPred).length : ℚ) /
          ((((monitorsOf data).filter upPred).length : ℚ) +
            (((monitorsOf data).filter downPred).length : ℚ)) * 100))
      else .num 0) ∧
    pyGetD (transformBody "t" fleetSample) "up_percentage" .null = .num 75 ∧
    pyGetD (transformBody "t" fleetSampleZero) "up_percentage" .null = .num 0 := by
  refine ⟨transform_ok_of_nonEmpty now data hne hb, ?_, ?_, rfl, ?_, ?_⟩
  · rw [← List.countP_eq_length_filter, ← List.countP_eq_length_filter, countP_monitorsOf]
    apply List.countP_congr
    intro im him
    rw [upPred_of_monitorStats im (bundle_nonEmpty_of_mem data hb im him)]
  · rw [← List.countP_eq_length_filter, ← List.countP_eq_length_filter, countP_monitorsOf]
    apply List.countP_congr
    intro im him
    rw [downPred_of_monitorStats im (bundle_nonEmpty_of_mem data hb im him)]
  · with_unfolding_all rfl
  · with_unfolding_all rfl

/-- Witness for C4's hypotheses at the concrete six-monitor fleet. -/
theorem fleet_up_percentage_witness :
    FleetIn.isEmpty fleetSample = false ∧ bundlesNonEmpty fleetSample = true ∧
    transform "t" fleetSample = .ok (transformBody "t" fleetSample) :=
  ⟨rfl, by decide, (fleet_up_percentage "t" fleetSample rfl (by decide)).1⟩

/-- C10: on a fleet whose bundles are non-empty, the transform succeeds;
every transformed monitor's status is exactly 0 or 1 (forced to 1 when the
raw active flag is truthy, else 0); every monitor belongs to exactly one of
the up / down / maintenance groups; and the three group counts sum to
`monitors_count`. -/
theorem fleet_partition (now : String) (data : FleetIn)
    (hne : data.isEmpty = false) (hb : bundlesNonEmpty data = true) :
    transform now data = .ok (transformBody now data) ∧
    (∀ m ∈ monitorsOf data,
      ∃ im, im ∈ data.monitors.getD [] ∧ m = monitorStats im ∧
        pyGet m "status" =
          some (.num (if (MonitorStatisticsResource.monitorOf im.2).active then 1 else 0)) ∧
        (pyGet m "status" = some (.num 0) ∨ pyGet m "status" = some (.num 1)) ∧
        groupCount m = 1) ∧
    pyGetD (transformBody now data) "monitors_count" .null =
      .num ((monitorsOf data).length : ℚ) ∧
    pyGetD (transformBody now data) "up_monitors_count" .null =
      .num ((((monitorsOf data).filter upPred).length : ℚ)) ∧
    pyGetD (transformBody now data) "down_monitors_count" .null =
      .num ((((monitorsOf data).filter downPred).length : ℚ)) ∧
    pyGetD (transformBody now data) "maintenance_monitors_count" .null =
      .num ((((monitorsOf data).filter maintPred).length : ℚ)) ∧
    ((monitorsOf data).filter upPred).length + ((monitorsOf data).filter downPred).length +
        ((monitorsOf data).filter maintPred).length = (monitorsOf data).length := by
  refine ⟨transform_ok_of_nonEmpty now data hne hb, ?_, rfl, rfl, rfl, rfl, ?_⟩
  · intro m hm
    rcases mem_monitorsOf data m hm with ⟨im, him, rfl⟩
    have hne2 := bundle_nonEmpty_of_mem data hb im him
    refine ⟨im, him, rfl, status_of_monitorStats im hne2, ?_,
      groupCount_of_monitorStats im hne2⟩
    rw [status_of_monitorStats im hne2]
    cases (MonitorStatisticsResource.monitorOf im.2).active
    · exact Or.inl rfl
    · exact Or.inr rfl
  · rw [← List.countP_eq_length_filter, ← List.countP_eq_length_filter,
      ← List.countP_eq_length_filter]
    apply count_partition
    intro m hm
    rcases mem_monitorsOf data m hm with ⟨im, him, rfl⟩
    exact groupCount_of_monitorStats im (bundle_nonEmpty_of_mem data hb im him)

/-- Witness for C10's hypotheses at the concrete six-monitor fleet. -/
theorem fleet_partition_witness :
    bundlesNonEmpty fleetSample = true ∧
    ((monitorsOf fleetSample).filter upPred).length +
      ((monitorsOf fleetSample).filter downPred).length +
      ((monitorsOf fleetSample).filter maintPred).length =
      (monitorsOf fleetSample).length :=
  ⟨by decide, (fleet_partition "t" fleetSample rfl (by decide)).2.2.2.2.2.2⟩

end AllMonitorsStatisticsResource
